import Mathlib

set_option maxRecDepth 16000

/-!
# Verification of the high-low breakout backtesting engine

A shallow embedding of the per-day trade simulation engine from
`entropy_best_conf.js`: the breakout detector, the pullback-entry order
state machine, the exit mechanisms in `simulateTrade`, and the statistics
aggregator `calculateStats`.  Prices, volumes and percentages are modelled
as exact rationals (the JS code uses IEEE doubles); timestamps are modelled
as minutes since midnight (the JS code stores readable timestamps and
converts with `parseTimeToMinutes`).  A JS arithmetic result that is not a
finite number (`NaN` or `±Infinity`, arising from division by zero) is
modelled as `Option.none`.
-/

namespace HighLow

/-- JS `Math.round`: round half toward `+∞`. -/
def jsRound (q : ℚ) : ℤ := ⌊q + 1/2⌋

/-- `roundToTickSize` from the source: `Math.round(price / tickSize) * tickSize`. -/
def roundToTickSize (price : ℚ) (tickSize : ℚ) : ℚ :=
  (jsRound (price / tickSize) : ℚ) * tickSize

/-- `priceRounding` configuration block. -/
structure PriceRounding where
  enabled : Bool
  tickSize : ℚ
deriving DecidableEq, Repr

/-- A single OHLCV bar.  `timeMin` is the candle's time of day in minutes
since midnight (the result of `parseTimeToMinutes` on its timestamp). -/
structure Candle where
  timeMin : ℕ
  openPrice : ℚ
  high : ℚ
  low : ℚ
  close : ℚ
  volume : ℚ
deriving DecidableEq, Repr

/-- `getCandleBodyHigh`: `Math.max(candle.open, candle.close)`. -/
def getCandleBodyHigh (c : Candle) : ℚ := max c.openPrice c.close

/-- `getCandleBodyLow`: `Math.min(candle.open, candle.close)`. -/
def getCandleBodyLow (c : Candle) : ℚ := min c.openPrice c.close

/-- `entryTimeRange` configuration block; times in minutes since midnight. -/
structure EntryTimeRange where
  enabled : Bool
  startTime : ℕ
  endTime : ℕ
deriving DecidableEq, Repr

/-- `marketExitTime` configuration block. -/
structure MarketExitTime where
  enabled : Bool
  exitTime : ℕ
  preExitLimitOrderMinutes : ℕ
  dynamicPriceAdjustment : Bool
deriving DecidableEq, Repr

/-- `volumeConfirmation` configuration block. -/
structure VolumeConfirmation where
  enabled : Bool
  volumeMultiplier : ℚ
  lookbackPeriod : ℕ
deriving DecidableEq, Repr

/-- `stopLossExitConfig` configuration block.  In JS the circuit breaker is
guarded by the truthiness of `maxLossPercent`, i.e. it must be a nonzero
number. -/
structure StopLossExitConfig where
  enabled : Bool
  dynamicStopLossAdjustment : Bool
  maxLossPercent : ℚ
  forceMarketOrderAfterMax : Bool
deriving DecidableEq, Repr

/-- `targetExitConfig` configuration block. -/
structure TargetExitConfig where
  enabled : Bool
  dynamicTargetAdjustment : Bool
deriving DecidableEq, Repr

/-- `entryOrderConfig` configuration block (only `dynamicEntryAdjustment`
is read by the engine). -/
structure EntryOrderConfig where
  enabled : Bool
  dynamicEntryAdjustment : Bool
deriving DecidableEq, Repr

/-- `capital` configuration block. -/
structure Capital where
  initial : ℚ
  utilizationPercent : ℚ
  leverage : ℚ
  brokerageFeePercent : ℚ
deriving DecidableEq, Repr

/-- The strategy configuration (the fields of `defaultConfig` that the
engine reads). -/
structure Config where
  minThreshold : ℕ
  maxThreshold : ℕ
  riskRewardRatio : ℚ
  pullbackPercentage : ℚ
  minimumStopLossPercent : ℚ
  entryTimeRange : EntryTimeRange
  marketExitTime : MarketExitTime
  volumeConfirmation : VolumeConfirmation
  stopLossExitConfig : StopLossExitConfig
  targetExitConfig : TargetExitConfig
  entryOrderConfig : EntryOrderConfig
  priceRounding : PriceRounding
  capital : Capital
deriving DecidableEq, Repr

/-- `applyPriceRounding`. -/
def applyPriceRounding (price : ℚ) (config : Config) : ℚ :=
  if config.priceRounding.enabled then roundToTickSize price config.priceRounding.tickSize
  else price

/-- `isMinimumStopLossPercentMet` (its `passed` field).  Disabled when
`minimumStopLossPercent` is falsy or `≤ 0`. -/
def isMinimumStopLossPercentMet (currentPrice stopLossPrice : ℚ) (config : Config) : Bool :=
  if config.minimumStopLossPercent ≤ 0 then true
  else (|currentPrice - stopLossPrice| / currentPrice) * 100 ≥ config.minimumStopLossPercent

/-- `isEntryTimeAllowed`, over minutes-since-midnight. -/
def isEntryTimeAllowed (timeMin : ℕ) (config : Config) : Bool :=
  if ¬config.entryTimeRange.enabled then true
  else config.entryTimeRange.startTime ≤ timeMin ∧ timeMin ≤ config.entryTimeRange.endTime

/-- `shouldPlacePreMarketExitOrder`: time has reached `exitTime −
preExitLimitOrderMinutes`. -/
def shouldPlacePreMarketExitOrder (timeMin : ℕ) (config : Config) : Bool :=
  if ¬config.marketExitTime.enabled then false
  else (timeMin : ℤ) ≥ (config.marketExitTime.exitTime : ℤ)
        - (config.marketExitTime.preExitLimitOrderMinutes : ℤ)

/-- `shouldForceMarketExit`: time has reached `exitTime`. -/
def shouldForceMarketExit (timeMin : ℕ) (config : Config) : Bool :=
  if ¬config.marketExitTime.enabled then false
  else timeMin ≥ config.marketExitTime.exitTime

/-- `isTimeThresholdMet`: elapsed minutes within `[minThreshold, maxThreshold]`. -/
def isTimeThresholdMet (timeDiff : ℕ) (config : Config) : Bool :=
  config.minThreshold ≤ timeDiff ∧ timeDiff ≤ config.maxThreshold

/-- `calculateTimeDiffInMinutes`: absolute difference of the two times. -/
def calculateTimeDiffInMinutes (t1 t2 : ℕ) : ℕ :=
  if t1 ≤ t2 then t2 - t1 else t1 - t2

/-- `isVolumeConfirmationMet` (its `passed` field): the pre-breakout candle's
volume must reach `volumeMultiplier ×` the average volume over the
`lookbackPeriod` candles preceding it. -/
def isVolumeConfirmationMet (data : List Candle) (currentIndex : ℕ) (config : Config) : Bool :=
  if ¬config.volumeConfirmation.enabled then true
  else if currentIndex = 0 ∨ data.length ≤ currentIndex - 1 then true
  else
    let pre := currentIndex - 1
    let lo := pre - config.volumeConfirmation.lookbackPeriod
    let idxs := List.range' lo (pre - lo)
    let totalVolume := (idxs.map (fun j => ((data.get? j).map Candle.volume).getD 0)).sum
    let count := idxs.length
    let averageVolume : ℚ := if 0 < count then totalVolume / count else 0
    let volumeThreshold := averageVolume * config.volumeConfirmation.volumeMultiplier
    (((data.get? pre).map Candle.volume).getD 0) ≥ volumeThreshold

/-- Trade direction. -/
inductive Direction where
  | long
  | short
deriving DecidableEq, Repr

/-- One recorded reprice of a pending limit order. -/
structure PriceUpdate where
  candleIndex : ℕ
  oldPrice : ℚ
  newPrice : ℚ
deriving DecidableEq, Repr

/-- A pending breakout event waiting for a pullback
(`pendingLongBreakout` / `pendingShortBreakout`). -/
structure BreakoutEvent where
  direction : Direction
  breakoutPrice : ℚ
  pullbackEntryPrice : ℚ
  target : ℚ
  stopLoss : ℚ
  breakoutTimeMin : ℕ
  timeSincePreviousExtreme : ℕ
deriving DecidableEq, Repr

/-- A pending limit entry order
(`pendingLongEntryOrder` / `pendingShortEntryOrder`). -/
structure EntryOrder where
  price : ℚ
  originalPrice : ℚ
  placedAtCandle : ℕ
  priceUpdates : List PriceUpdate
  breakoutInfo : BreakoutEvent
deriving DecidableEq, Repr

/-- The `entryOrderDetails` block recorded on a filled entry. -/
structure EntryOrderDetails where
  orderPlacedAtCandle : ℕ
  filledAtCandle : ℕ
  originalOrderPrice : ℚ
  finalOrderPrice : ℚ
  priceUpdates : List PriceUpdate
deriving DecidableEq, Repr

/-- A filled entry (`longEntry` / `shortEntry`): the trade object handed to
`simulateTrade`. -/
structure Entry where
  type : Direction
  entryPrice : ℚ
  entryTimeMin : ℕ
  target : ℚ
  stopLoss : ℚ
  breakoutPrice : ℚ
  entryOrderDetails : EntryOrderDetails
deriving DecidableEq, Repr

/-- An elapsed-time violation recorded in `invalidBreakouts`. -/
structure InvalidBreakout where
  direction : Direction
  breakoutTimeMin : ℕ
  breakoutPrice : ℚ
  timeGap : ℕ
deriving DecidableEq, Repr

/-- The early-return record produced when a breakout fails the minimum
stop-distance check (`minimumStopLossRejection: true`). -/
structure StopRejection where
  direction : Direction
  breakoutTimeMin : ℕ
  breakoutPrice : ℚ
  actualStopLossPercent : ℚ
  minimumStopLossRejection : Bool
deriving DecidableEq, Repr

/-- The per-day scan state of `analyzeTradingDay`. -/
structure DetectorState where
  previousHighTime : ℕ
  previousHighPrice : ℚ
  previousLowTime : ℕ
  previousLowPrice : ℚ
  lowestSinceLastHigh : ℚ
  highestSinceLastLow : ℚ
  pendingLongBreakout : Option BreakoutEvent
  pendingShortBreakout : Option BreakoutEvent
  pendingLongEntryOrder : Option EntryOrder
  pendingShortEntryOrder : Option EntryOrder
  longEntry : Option Entry
  shortEntry : Option Entry
  invalidBreakouts : List InvalidBreakout
deriving DecidableEq, Repr

/-- The initial scan state, built from the day's first candle. -/
def initState (c0 : Candle) : DetectorState where
  previousHighTime := c0.timeMin
  previousHighPrice := getCandleBodyHigh c0
  previousLowTime := c0.timeMin
  previousLowPrice := getCandleBodyLow c0
  lowestSinceLastHigh := getCandleBodyLow c0
  highestSinceLastLow := getCandleBodyHigh c0
  pendingLongBreakout := none
  pendingShortBreakout := none
  pendingLongEntryOrder := none
  pendingShortEntryOrder := none
  longEntry := none
  shortEntry := none
  invalidBreakouts := []

/-- Scan phase 1: update `lowestSinceLastHigh` / `highestSinceLastLow` from
the candle body. -/
def updExtremes (st : DetectorState) (c : Candle) : DetectorState :=
  let st :=
    if getCandleBodyLow c < st.lowestSinceLastHigh then
      { st with lowestSinceLastHigh := getCandleBodyLow c }
    else st
  if getCandleBodyHigh c > st.highestSinceLastLow then
    { st with highestSinceLastLow := getCandleBodyHigh c }
  else st

/-- Scan phase 2 (long): when a pending long breakout's pullback level is
reached (`candle.low ≤ pullbackEntryPrice` AND `candle.close <
pullbackEntryPrice`) inside the entry window, place a limit buy order at
the rounded close; outside the window, drop the breakout. -/
def placeLongEntryOrder (config : Config) (st : DetectorState) (i : ℕ) (c : Candle) :
    DetectorState :=
  match st.pendingLongBreakout, st.longEntry, st.pendingLongEntryOrder with
  | some b, none, none =>
    if c.low ≤ b.pullbackEntryPrice ∧ c.close < b.pullbackEntryPrice then
      if isEntryTimeAllowed c.timeMin config then
        let roundedClosePrice := applyPriceRounding c.close config
        let o : EntryOrder :=
          { price := roundedClosePrice
            originalPrice := roundedClosePrice
            placedAtCandle := i
            priceUpdates := []
            breakoutInfo := b }
        { st with pendingLongEntryOrder := some o }
      else { st with pendingLongBreakout := none }
    else st
  | _, _, _ => st

/-- Scan phase 3 (short): symmetric to `placeLongEntryOrder` with
`candle.high ≥ pullbackEntryPrice` AND `candle.close > pullbackEntryPrice`. -/
def placeShortEntryOrder (config : Config) (st : DetectorState) (i : ℕ) (c : Candle) :
    DetectorState :=
  match st.pendingShortBreakout, st.shortEntry, st.pendingShortEntryOrder with
  | some b, none, none =>
    if c.high ≥ b.pullbackEntryPrice ∧ c.close > b.pullbackEntryPrice then
      if isEntryTimeAllowed c.timeMin config then
        let roundedClosePrice := applyPriceRounding c.close config
        let o : EntryOrder :=
          { price := roundedClosePrice
            originalPrice := roundedClosePrice
            placedAtCandle := i
            priceUpdates := []
            breakoutInfo := b }
        { st with pendingShortEntryOrder := some o }
      else { st with pendingShortBreakout := none }
    else st
  | _, _, _ => st

/-- Scan phase 4 (long): fill / chase / cancel a pending long entry order,
with skip-one-candle logic (`i > placedAtCandle + 1`). -/
def fillLongEntryOrder (config : Config) (st : DetectorState) (i : ℕ) (c : Candle) :
    DetectorState :=
  match st.pendingLongEntryOrder, st.longEntry with
  | some o, none =>
    if i > o.placedAtCandle + 1 then
      if ¬isEntryTimeAllowed c.timeMin config then
        { st with pendingLongEntryOrder := none, pendingLongBreakout := none }
      else if c.low ≤ o.price then
        let e : Entry :=
          { type := Direction.long
            entryPrice := o.price
            entryTimeMin := c.timeMin
            target := o.breakoutInfo.target
            stopLoss := o.breakoutInfo.stopLoss
            breakoutPrice := o.breakoutInfo.breakoutPrice
            entryOrderDetails :=
              { orderPlacedAtCandle := o.placedAtCandle
                filledAtCandle := i
                originalOrderPrice := o.originalPrice
                finalOrderPrice := o.price
                priceUpdates := o.priceUpdates } }
        { st with
            longEntry := some e
            pendingLongBreakout := none
            pendingLongEntryOrder := none }
      else
        let oldPrice := o.price
        let newPrice := applyPriceRounding c.close config
        if config.entryOrderConfig.dynamicEntryAdjustment ∧ newPrice < oldPrice ∧
            |newPrice - oldPrice| ≥ 1/20 then
          let o' : EntryOrder :=
            { o with
                price := newPrice
                priceUpdates := o.priceUpdates ++
                  [{ candleIndex := i, oldPrice := oldPrice, newPrice := newPrice }] }
          { st with pendingLongEntryOrder := some o' }
        else st
    else st
  | _, _ => st

/-- Scan phase 5 (short): symmetric to `fillLongEntryOrder` (fill when
`candle.high ≥ price`; chase only to a higher rounded close). -/
def fillShortEntryOrder (config : Config) (st : DetectorState) (i : ℕ) (c : Candle) :
    DetectorState :=
  match st.pendingShortEntryOrder, st.shortEntry with
  | some o, none =>
    if i > o.placedAtCandle + 1 then
      if ¬isEntryTimeAllowed c.timeMin config then
        { st with pendingShortEntryOrder := none, pendingShortBreakout := none }
      else if c.high ≥ o.price then
        let e : Entry :=
          { type := Direction.short
            entryPrice := o.price
            entryTimeMin := c.timeMin
            target := o.breakoutInfo.target
            stopLoss := o.breakoutInfo.stopLoss
            breakoutPrice := o.breakoutInfo.breakoutPrice
            entryOrderDetails :=
              { orderPlacedAtCandle := o.placedAtCandle
                filledAtCandle := i
                originalOrderPrice := o.originalPrice
                finalOrderPrice := o.price
                priceUpdates := o.priceUpdates } }
        { st with
            shortEntry := some e
            pendingShortBreakout := none
            pendingShortEntryOrder := none }
      else
        let oldPrice := o.price
        let newPrice := applyPriceRounding c.close config
        if config.entryOrderConfig.dynamicEntryAdjustment ∧ newPrice > oldPrice ∧
            |newPrice - oldPrice| ≥ 1/20 then
          let o' : EntryOrder :=
            { o with
                price := newPrice
                priceUpdates := o.priceUpdates ++
                  [{ candleIndex := i, oldPrice := oldPrice, newPrice := newPrice }] }
          { st with pendingShortEntryOrder := some o' }
        else st
    else st
  | _, _ => st

/-- The breakout-validation attempt of the new-high branch: time
threshold, volume confirmation and minimum stop distance; emits the
pending long breakout, the stop-rejection early return, or no change. -/
def detectHighAttempt (config : Config) (data : List Candle) (st : DetectorState) (i : ℕ)
    (c : Candle) (timeDiff : ℕ) : Except StopRejection DetectorState :=
  if isTimeThresholdMet timeDiff config ∧ st.pendingLongBreakout = none ∧
      st.longEntry = none then
    if isVolumeConfirmationMet data i config then
      let breakoutPrice := applyPriceRounding st.previousHighPrice config
      let stopLoss := applyPriceRounding st.lowestSinceLastHigh config
      if isMinimumStopLossPercentMet breakoutPrice stopLoss config then
        let risk := breakoutPrice - stopLoss
        let target := applyPriceRounding (breakoutPrice + risk * config.riskRewardRatio) config
        let pullbackAmount := risk * (config.pullbackPercentage / 100)
        let pullbackEntryPrice := applyPriceRounding (breakoutPrice - pullbackAmount) config
        let b : BreakoutEvent :=
          { direction := Direction.long
            breakoutPrice := breakoutPrice
            pullbackEntryPrice := pullbackEntryPrice
            target := target
            stopLoss := stopLoss
            breakoutTimeMin := c.timeMin
            timeSincePreviousExtreme := timeDiff }
        Except.ok { st with pendingLongBreakout := some b }
      else
        Except.error
          { direction := Direction.long
            breakoutTimeMin := c.timeMin
            breakoutPrice := breakoutPrice
            actualStopLossPercent := (|breakoutPrice - stopLoss| / breakoutPrice) * 100
            minimumStopLossRejection := true }
    else Except.ok st
  else Except.ok st

/-- Record an elapsed-time violation of the new-high branch. -/
def recordInvalidHigh (config : Config) (st : DetectorState) (c : Candle) (timeDiff : ℕ) :
    DetectorState :=
  if ¬isTimeThresholdMet timeDiff config then
    { st with invalidBreakouts := st.invalidBreakouts ++
        [{ direction := Direction.long
           breakoutTimeMin := c.timeMin
           breakoutPrice := applyPriceRounding st.previousHighPrice config
           timeGap := timeDiff }] }
  else st

/-- Scan phase 6 (long): detect a new strict body high (`> previousHigh +
0.05`), run the breakout-validation attempt, record elapsed-time
violations, and reset the running extremes. -/
def detectHigh (config : Config) (data : List Candle) (st : DetectorState) (i : ℕ)
    (c : Candle) : Except StopRejection DetectorState :=
  let currentBodyHigh := getCandleBodyHigh c
  let currentBodyLow := getCandleBodyLow c
  if currentBodyHigh > st.previousHighPrice + 1/20 then
    let timeDiff := calculateTimeDiffInMinutes c.timeMin st.previousHighTime
    match detectHighAttempt config data st i c timeDiff with
    | Except.error r => Except.error r
    | Except.ok st =>
      let st := recordInvalidHigh config st c timeDiff
      Except.ok { st with
        previousHighPrice := currentBodyHigh
        previousHighTime := c.timeMin
        lowestSinceLastHigh := currentBodyLow }
  else Except.ok st

/-- The breakout-validation attempt of the new-low branch, symmetric to
`detectHighAttempt`. -/
def detectLowAttempt (config : Config) (data : List Candle) (st : DetectorState) (i : ℕ)
    (c : Candle) (timeDiff : ℕ) : Except StopRejection DetectorState :=
  if isTimeThresholdMet timeDiff config ∧ st.pendingShortBreakout = none ∧
      st.shortEntry = none then
    if isVolumeConfirmationMet data i config then
      let breakoutPrice := applyPriceRounding st.previousLowPrice config
      let stopLoss := applyPriceRounding st.highestSinceLastLow config
      if isMinimumStopLossPercentMet breakoutPrice stopLoss config then
        let risk := stopLoss - breakoutPrice
        let target := applyPriceRounding (breakoutPrice - risk * config.riskRewardRatio) config
        let pullbackAmount := risk * (config.pullbackPercentage / 100)
        let pullbackEntryPrice := applyPriceRounding (breakoutPrice + pullbackAmount) config
        let b : BreakoutEvent :=
          { direction := Direction.short
            breakoutPrice := breakoutPrice
            pullbackEntryPrice := pullbackEntryPrice
            target := target
            stopLoss := stopLoss
            breakoutTimeMin := c.timeMin
            timeSincePreviousExtreme := timeDiff }
        Except.ok { st with pendingShortBreakout := some b }
      else
        Except.error
          { direction := Direction.short
            breakoutTimeMin := c.timeMin
            breakoutPrice := breakoutPrice
            actualStopLossPercent := (|breakoutPrice - stopLoss| / breakoutPrice) * 100
            minimumStopLossRejection := true }
    else Except.ok st
  else Except.ok st

/-- Record an elapsed-time violation of the new-low branch. -/
def recordInvalidLow (config : Config) (st : DetectorState) (c : Candle) (timeDiff : ℕ) :
    DetectorState :=
  if ¬isTimeThresholdMet timeDiff config then
    { st with invalidBreakouts := st.invalidBreakouts ++
        [{ direction := Direction.short
           breakoutTimeMin := c.timeMin
           breakoutPrice := applyPriceRounding st.previousLowPrice config
           timeGap := timeDiff }] }
  else st

/-- Scan phase 7 (short): detect a new strict body low (`< previousLow −
0.05`), symmetric to `detectHigh`. -/
def detectLow (config : Config) (data : List Candle) (st : DetectorState) (i : ℕ)
    (c : Candle) : Except StopRejection DetectorState :=
  let currentBodyHigh := getCandleBodyHigh c
  let currentBodyLow := getCandleBodyLow c
  if currentBodyLow < st.previousLowPrice - 1/20 then
    let timeDiff := calculateTimeDiffInMinutes c.timeMin st.previousLowTime
    match detectLowAttempt config data st i c timeDiff with
    | Except.error r => Except.error r
    | Except.ok st =>
      let st := recordInvalidLow config st c timeDiff
      Except.ok { st with
        previousLowPrice := currentBodyLow
        previousLowTime := c.timeMin
        highestSinceLastLow := currentBodyHigh }
  else Except.ok st

/-- One iteration of the `analyzeTradingDay` scan loop at candle index `i`. -/
def analyzeDayStep (config : Config) (data : List Candle) (st : DetectorState) (i : ℕ)
    (c : Candle) : Except StopRejection DetectorState :=
  let st := updExtremes st c
  let st := placeLongEntryOrder config st i c
  let st := placeShortEntryOrder config st i c
  let st := fillLongEntryOrder config st i c
  let st := fillShortEntryOrder config st i c
  match detectHigh config data st i c with
  | Except.error r => Except.error r
  | Except.ok st => detectLow config data st i c

/-- Run the scan loop over the remaining `(index, candle)` pairs of the
day (the JS loop `for i = 1; i < dayData.length; i++`). -/
def scanSteps (config : Config) (data : List Candle) :
    DetectorState → List (ℕ × Candle) → Except StopRejection DetectorState
  | st, [] => Except.ok st
  | st, ic :: rest =>
    match analyzeDayStep config data st ic.1 ic.2 with
    | Except.error r => Except.error r
    | Except.ok st' => scanSteps config data st' rest

/-- The full `analyzeTradingDay` scan over a day's candles (indices `1` to
`length − 1`, as in the source). -/
def analyzeDayScan (config : Config) (data : List Candle) :
    Except StopRejection DetectorState :=
  match data with
  | [] => Except.ok (initState ⟨0, 0, 0, 0, 0, 0⟩)
  | c0 :: tl => scanSteps config data (initState c0) (tl.enumFrom 1)

/-- A pending exit-side limit order inside `simulateTrade` (stop-loss,
target or pre-market exit order). -/
structure Order where
  price : ℚ
  originalPrice : ℚ
  placedAtCandle : ℕ
  priceUpdates : List PriceUpdate
deriving DecidableEq, Repr

/-- The exit reason of a simulated trade.  Limit-order fills carry the
placement and fill candle indices, matching the recorded
`orderFillDetails`; the circuit-breaker reason carries the configured
`maxLossPercent` that appears in its reason string. -/
inductive ExitReason where
  | preMarketFilled (placedAt filledAt : ℕ)
  | forcedMarketExit
  | targetFilled (placedAt filledAt : ℕ)
  | stopLossFilled (placedAt filledAt : ℕ)
  | circuitBreaker (maxLossPercent : ℚ)
  | marketClose
deriving DecidableEq, Repr

/-- A loop-breaking exit event in `simulateTrade`. -/
structure SimExit where
  price : ℚ
  timeMin : ℕ
  candleIndex : ℕ
  reason : ExitReason
deriving DecidableEq, Repr

/-- The mutable state of the `simulateTrade` candle loop. -/
structure SimState where
  preMarketExitOrder : Option Order
  stopLossBreach : Bool
  activeStopLossOrder : Option Order
  targetHit : Bool
  activeTargetOrder : Option Order
  maxFavorableExcursion : ℚ
deriving DecidableEq, Repr

/-- The initial `simulateTrade` loop state. -/
def initSimState : SimState where
  preMarketExitOrder := none
  stopLossBreach := false
  activeStopLossOrder := none
  targetHit := false
  activeTargetOrder := none
  maxFavorableExcursion := 0

/-- The per-trade constants of the `simulateTrade` loop. -/
structure SimCtx where
  config : Config
  trade : Entry
  maxShares : ℤ
  riskPoints : ℚ
deriving Repr

/-- A loop phase result: the state at the end of the phase (or at the
moment of a loop `break`), together with the breaking exit, if any. -/
abbrev PhaseResult := SimState × Option SimExit

/-- Sequence two loop phases, short-circuiting on an exit while keeping the
state reached at the break point. -/
def phaseThen (r : PhaseResult) (f : SimState → PhaseResult) : PhaseResult :=
  match r with
  | (st, some e) => (st, some e)
  | (st, none) => f st

/-- Loop phase: place the pre-market exit limit order at the rounded close
once `shouldPlacePreMarketExitOrder` holds. -/
def placePreMarketPhase (ctx : SimCtx) (st : SimState) (i : ℕ) (c : Candle) : SimState :=
  if ctx.config.marketExitTime.enabled ∧ st.preMarketExitOrder = none ∧
      shouldPlacePreMarketExitOrder c.timeMin ctx.config then
    let roundedClosePrice := applyPriceRounding c.close ctx.config
    let o : Order :=
      { price := roundedClosePrice
        originalPrice := roundedClosePrice
        placedAtCandle := i
        priceUpdates := [] }
    { st with preMarketExitOrder := some o }
  else st

/-- Loop phase: fill or reprice the pre-market exit order (skip one
candle).  The dynamic chase updates to the latest rounded close whenever
the change is at least one tick, in either direction. -/
def preMarketFillPhase (ctx : SimCtx) (st : SimState) (i : ℕ) (c : Candle) : PhaseResult :=
  match st.preMarketExitOrder with
  | some o =>
    if i > o.placedAtCandle + 1 then
      let orderFilled : Bool :=
        match ctx.trade.type with
        | Direction.long => c.high ≥ o.price
        | Direction.short => c.low ≤ o.price
      if orderFilled then
        (st, some
          { price := o.price
            timeMin := c.timeMin
            candleIndex := i
            reason := ExitReason.preMarketFilled o.placedAtCandle i })
      else if ctx.config.marketExitTime.dynamicPriceAdjustment then
        let oldPrice := o.price
        let newPrice := applyPriceRounding c.close ctx.config
        if |newPrice - oldPrice| ≥ 1/20 then
          let o' : Order :=
            { o with
                price := newPrice
                priceUpdates := o.priceUpdates ++
                  [{ candleIndex := i, oldPrice := oldPrice, newPrice := newPrice }] }
          ({ st with preMarketExitOrder := some o' }, none)
        else (st, none)
      else (st, none)
    else (st, none)
  | none => (st, none)

/-- Loop phase: forced market exit at the rounded close once time reaches
`exitTime`. -/
def forcedExitPhase (ctx : SimCtx) (st : SimState) (i : ℕ) (c : Candle) : PhaseResult :=
  if shouldForceMarketExit c.timeMin ctx.config then
    (st, some
      { price := applyPriceRounding c.close ctx.config
        timeMin := c.timeMin
        candleIndex := i
        reason := ExitReason.forcedMarketExit })
  else (st, none)

/-- Loop phase: update the max favorable excursion from the candle's
favorable extreme. -/
def mfePhase (ctx : SimCtx) (st : SimState) (c : Candle) : SimState :=
  let currentPnL :=
    match ctx.trade.type with
    | Direction.long => (c.high - ctx.trade.entryPrice) * (ctx.maxShares : ℚ)
    | Direction.short => (ctx.trade.entryPrice - c.low) * (ctx.maxShares : ℚ)
  { st with maxFavorableExcursion := max st.maxFavorableExcursion currentPnL }

/-- Target-hit detection: on first touch of the target, place the target
limit order at the rounded close. -/
def targetHitCheck (ctx : SimCtx) (st : SimState) (i : ℕ) (c : Candle) : SimState :=
  let targetTouched : Bool :=
    match ctx.trade.type with
    | Direction.long => c.high ≥ ctx.trade.target
    | Direction.short => c.low ≤ ctx.trade.target
  if ctx.config.targetExitConfig.enabled ∧ ¬st.targetHit ∧ st.activeTargetOrder = none ∧
      targetTouched then
    let roundedClosePrice := applyPriceRounding c.close ctx.config
    let o : Order :=
      { price := roundedClosePrice
        originalPrice := roundedClosePrice
        placedAtCandle := i
        priceUpdates := [] }
    { st with targetHit := true, activeTargetOrder := some o }
  else st

/-- Target limit-order fill or chase (skip one candle; chase only toward
the trader's advantage). -/
def targetOrderFillOrUpdate (ctx : SimCtx) (st : SimState) (i : ℕ) (c : Candle) : PhaseResult :=
  match st.activeTargetOrder with
  | some o =>
    if i > o.placedAtCandle + 1 then
      let fillTouched : Bool :=
        match ctx.trade.type with
        | Direction.long => c.high ≥ o.price
        | Direction.short => c.low ≤ o.price
      if fillTouched then
        (st, some
          { price := o.price
            timeMin := c.timeMin
            candleIndex := i
            reason := ExitReason.targetFilled o.placedAtCandle i })
      else if ctx.config.targetExitConfig.dynamicTargetAdjustment then
        let oldPrice := o.price
        let newPrice := applyPriceRounding c.close ctx.config
        let better : Bool :=
          match ctx.trade.type with
          | Direction.long => newPrice > oldPrice
          | Direction.short => newPrice < oldPrice
        if better ∧ |newPrice - oldPrice| ≥ 1/20 then
          let o' : Order :=
            { o with
                price := newPrice
                priceUpdates := o.priceUpdates ++
                  [{ candleIndex := i, oldPrice := oldPrice, newPrice := newPrice }] }
          ({ st with activeTargetOrder := some o' }, none)
        else (st, none)
      else (st, none)
    else (st, none)
  | none => (st, none)

/-- Loop phase: target-hit detection, then target limit-order fill or chase
(skip one candle; chase only toward the trader's advantage). -/
def targetPhase (ctx : SimCtx) (st : SimState) (i : ℕ) (c : Candle) : PhaseResult :=
  targetOrderFillOrUpdate ctx (targetHitCheck ctx st i c) i c

/-- Stop-loss breach detection: on first breach of the stop level, place
the stop-loss limit order at the rounded close. -/
def stopLossBreachCheck (ctx : SimCtx) (st : SimState) (i : ℕ) (c : Candle) : SimState :=
  let breachTouched : Bool :=
    match ctx.trade.type with
    | Direction.long => c.low ≤ ctx.trade.stopLoss
    | Direction.short => c.high ≥ ctx.trade.stopLoss
  if ¬st.stopLossBreach ∧ breachTouched then
    let roundedClosePrice := applyPriceRounding c.close ctx.config
    let o : Order :=
      { price := roundedClosePrice
        originalPrice := roundedClosePrice
        placedAtCandle := i
        priceUpdates := [] }
    { st with stopLossBreach := true, activeStopLossOrder := some o }
  else st

/-- Stop-loss limit-order fill or chase (skip one candle; chase only
toward the trader's disadvantage). -/
def stopLossOrderFillOrUpdate (ctx : SimCtx) (st : SimState) (i : ℕ) (c : Candle) :
    PhaseResult :=
  match st.activeStopLossOrder with
  | some o =>
    if i > o.placedAtCandle + 1 then
      let recoveryTouched : Bool :=
        match ctx.trade.type with
        | Direction.long => c.high ≥ o.price
        | Direction.short => c.low ≤ o.price
      if recoveryTouched then
        (st, some
          { price := o.price
            timeMin := c.timeMin
            candleIndex := i
            reason := ExitReason.stopLossFilled o.placedAtCandle i })
      else if ctx.config.stopLossExitConfig.dynamicStopLossAdjustment then
        let oldPrice := o.price
        let newPrice := applyPriceRounding c.close ctx.config
        let worse : Bool :=
          match ctx.trade.type with
          | Direction.long => newPrice < oldPrice
          | Direction.short => newPrice > oldPrice
        if worse ∧ |newPrice - oldPrice| ≥ 1/20 then
          let o' : Order :=
            { o with
                price := newPrice
                priceUpdates := o.priceUpdates ++
                  [{ candleIndex := i, oldPrice := oldPrice, newPrice := newPrice }] }
          ({ st with activeStopLossOrder := some o' }, none)
        else (st, none)
      else (st, none)
    else (st, none)
  | none => (st, none)

/-- Circuit breaker: force a market exit at the rounded adverse extreme
when the loss percentage (relative to `riskPoints`) reaches
`maxLossPercent` (a truthy, i.e. nonzero, value). -/
def circuitBreakerCheck (ctx : SimCtx) (st : SimState) (i : ℕ) (c : Candle) : PhaseResult :=
  if ctx.config.stopLossExitConfig.forceMarketOrderAfterMax ∧
      ctx.config.stopLossExitConfig.maxLossPercent ≠ 0 then
    let currentLoss :=
      match ctx.trade.type with
      | Direction.long => ctx.trade.entryPrice - c.low
      | Direction.short => c.high - ctx.trade.entryPrice
    let lossPercentage := (currentLoss / ctx.riskPoints) * 100
    if lossPercentage ≥ ctx.config.stopLossExitConfig.maxLossPercent then
      let adverseExtreme :=
        match ctx.trade.type with
        | Direction.long => c.low
        | Direction.short => c.high
      (st, some
        { price := applyPriceRounding adverseExtreme ctx.config
          timeMin := c.timeMin
          candleIndex := i
          reason := ExitReason.circuitBreaker ctx.config.stopLossExitConfig.maxLossPercent })
    else (st, none)
  else (st, none)

/-- Loop phase: stop-loss breach detection and limit-order placement, fill
or chase, then the circuit breaker.  The whole phase is skipped while a
target limit order is active. -/
def stopLossPhase (ctx : SimCtx) (st : SimState) (i : ℕ) (c : Candle) : PhaseResult :=
  if ctx.config.stopLossExitConfig.enabled ∧ st.activeTargetOrder = none then
    phaseThen (stopLossOrderFillOrUpdate ctx (stopLossBreachCheck ctx st i c) i c)
      (fun st => circuitBreakerCheck ctx st i c)
  else (st, none)

/-- One iteration of the `simulateTrade` candle loop at index `i`. -/
def simStep (ctx : SimCtx) (st : SimState) (i : ℕ) (c : Candle) : PhaseResult :=
  let st := placePreMarketPhase ctx st i c
  phaseThen (preMarketFillPhase ctx st i c) fun st =>
    phaseThen (forcedExitPhase ctx st i c) fun st =>
      let st := mfePhase ctx st c
      phaseThen (targetPhase ctx st i c) fun st =>
        stopLossPhase ctx st i c

/-- Run the `simulateTrade` candle loop over the remaining `(index,
candle)` pairs, returning the final state and the breaking exit, if any. -/
def simScanSteps (ctx : SimCtx) :
    SimState → List (ℕ × Candle) → SimState × Option SimExit
  | st, [] => (st, none)
  | st, ic :: rest =>
    match simStep ctx st ic.1 ic.2 with
    | (st', some e) => (st', some e)
    | (st', none) => simScanSteps ctx st' rest

/-- JS `a || b` on numbers: `b` when `a` is falsy (zero), else `a`. -/
def jsOrQ (a b : ℚ) : ℚ := if a = 0 then b else a

/-- The trade result object assembled at the end of `simulateTrade`.
`profit` and `profitPercentage` duplicate `netProfit` and
`netProfitPercentage` in the source and are not repeated here.  The
`…Percentage` fields are `none` when the JS computation divides by zero
(producing a non-finite number). -/
structure TradeResult where
  type : Direction
  entryPrice : ℚ
  entryTimeMin : ℕ
  entryFee : ℚ
  exitPrice : ℚ
  exitTimeMin : ℕ
  exitReason : ExitReason
  exitFee : ℚ
  target : ℚ
  stopLoss : ℚ
  shares : ℤ
  leverage : ℚ
  grossInvestedAmount : ℚ
  actualCapitalUsed : ℚ
  totalFees : ℚ
  riskPoints : ℚ
  grossProfit : ℚ
  netProfit : ℚ
  grossProfitPercentage : Option ℚ
  netProfitPercentage : Option ℚ
  maxFavorableExcursion : ℚ
  breakoutPrice : ℚ
  entryOrderDetails : EntryOrderDetails
  stopLossBreached : Bool
  circuitBreakerTriggered : Bool
  stopLossOrder : Option Order
  targetHit : Bool
  targetOrder : Option Order
  preMarketOrder : Option Order
deriving DecidableEq

/-- The entry-candle search of `simulateTrade`: exact timestamp match
first, then the first candle at or after the entry time. -/
def findEntryIndex (trade : Entry) (data : List Candle) : Option ℕ :=
  match data.findIdx? (fun c => c.timeMin = trade.entryTimeMin) with
  | some k => some k
  | none => data.findIdx? (fun c => c.timeMin ≥ trade.entryTimeMin)

/-- The body of `simulateTrade` once the entry candle is located: size the
position, run the candle loop, fall back to a market-close exit, and
assemble the trade result. -/
def mkTradeResult (config : Config) (capital : Capital) (trade : Entry)
    (data : List Candle) (entryIndex : ℕ) : TradeResult :=
  let availableCapital := capital.initial * (capital.utilizationPercent / 100)
  let leveragedCapital := availableCapital * jsOrQ capital.leverage 1
  let maxShares : ℤ := ⌊leveragedCapital / trade.entryPrice⌋
  let investedAmount := (maxShares : ℚ) * trade.entryPrice
  let brokerageFeePercent := capital.brokerageFeePercent
  let entryBrokerageFee := investedAmount * brokerageFeePercent / 100
  let riskPoints :=
    match trade.type with
    | Direction.long => trade.entryPrice - trade.stopLoss
    | Direction.short => trade.stopLoss - trade.entryPrice
  let ctx : SimCtx :=
    { config := config, trade := trade, maxShares := maxShares, riskPoints := riskPoints }
  let scanned := simScanSteps ctx initSimState
    ((data.drop (entryIndex + 1)).enumFrom (entryIndex + 1))
  let finalState := scanned.1
  let exit : SimExit :=
    match scanned.2 with
    | some e => e
    | none =>
      let lastCandle := (data.getLast?).getD ⟨0, 0, 0, 0, 0, 0⟩
      { price := applyPriceRounding lastCandle.close config
        timeMin := lastCandle.timeMin
        candleIndex := data.length - 1
        reason := ExitReason.marketClose }
  let exitValue := (maxShares : ℚ) * exit.price
  let exitBrokerageFee := exitValue * brokerageFeePercent / 100
  let grossProfit :=
    match trade.type with
    | Direction.long => (exit.price - trade.entryPrice) * (maxShares : ℚ)
    | Direction.short => (trade.entryPrice - exit.price) * (maxShares : ℚ)
  let netProfit := grossProfit - (entryBrokerageFee + exitBrokerageFee)
  let actualCapitalUsed := investedAmount / jsOrQ capital.leverage 1
  let netProfitPercentage : Option ℚ :=
    if actualCapitalUsed = 0 then none else some ((netProfit / actualCapitalUsed) * 100)
  let grossProfitPercentage : Option ℚ :=
    if actualCapitalUsed = 0 then none else some ((grossProfit / actualCapitalUsed) * 100)
  { type := trade.type
    entryPrice := trade.entryPrice
    entryTimeMin := trade.entryTimeMin
    entryFee := entryBrokerageFee
    exitPrice := exit.price
    exitTimeMin := exit.timeMin
    exitReason := exit.reason
    exitFee := exitBrokerageFee
    target := trade.target
    stopLoss := trade.stopLoss
    shares := maxShares
    leverage := jsOrQ capital.leverage 1
    grossInvestedAmount := investedAmount
    actualCapitalUsed := actualCapitalUsed
    totalFees := entryBrokerageFee + exitBrokerageFee
    riskPoints := riskPoints
    grossProfit := grossProfit
    netProfit := netProfit
    grossProfitPercentage := grossProfitPercentage
    netProfitPercentage := netProfitPercentage
    maxFavorableExcursion := finalState.maxFavorableExcursion
    breakoutPrice := trade.breakoutPrice
    entryOrderDetails := trade.entryOrderDetails
    stopLossBreached := finalState.stopLossBreach
    circuitBreakerTriggered :=
      match exit.reason with
      | ExitReason.circuitBreaker _ => true
      | _ => false
    stopLossOrder := finalState.activeStopLossOrder
    targetHit := finalState.targetHit
    targetOrder := finalState.activeTargetOrder
    preMarketOrder := finalState.preMarketExitOrder }

/-- `simulateTrade`: locate the entry candle and assemble the trade
result; `none` when the entry candle cannot be found. -/
def simulateTrade (config : Config) (capital : Capital) (trade : Entry)
    (data : List Candle) : Option TradeResult :=
  match findEntryIndex trade data with
  | none => none
  | some entryIndex => some (mkTradeResult config capital trade data entryIndex)

/-- The outcome `analyzeTradingDay` reports for one day. -/
inductive DayOutcome where
  | noData
  | minStopRejection (r : StopRejection)
  | trade (r : TradeResult)
  | couldNotFindEntry
  | breakoutNoPullback (direction : Direction) (breakoutPrice pullbackEntryPrice : ℚ)
  | entryOrderUnfilled (direction : Direction) (orderPrice : ℚ)
  | breakoutOutsideTimeRange (b : InvalidBreakout)
  | noBreakout
deriving DecidableEq

/-- Extract the trade result of a day outcome, if any. -/
def DayOutcome.tradeResult? : DayOutcome → Option TradeResult
  | DayOutcome.trade r => some r
  | _ => none

/-- The post-scan dispatch of `analyzeTradingDay`: simulate `longEntry ||
shortEntry` when an entry filled, otherwise report the pending breakout /
unfilled entry order / first invalid breakout / no breakout. -/
def dayDispatch (config : Config) (data : List Candle) (st : DetectorState) : DayOutcome :=
  match st.longEntry, st.shortEntry with
  | some e, _ =>
    (simulateTrade config config.capital e data).elim DayOutcome.couldNotFindEntry DayOutcome.trade
  | none, some e =>
    (simulateTrade config config.capital e data).elim DayOutcome.couldNotFindEntry DayOutcome.trade
  | none, none =>
    match st.pendingLongBreakout, st.pendingShortBreakout with
    | some b, _ => DayOutcome.breakoutNoPullback b.direction b.breakoutPrice b.pullbackEntryPrice
    | none, some b => DayOutcome.breakoutNoPullback b.direction b.breakoutPrice b.pullbackEntryPrice
    | none, none =>
      match st.pendingLongEntryOrder, st.pendingShortEntryOrder with
      | some o, _ => DayOutcome.entryOrderUnfilled o.breakoutInfo.direction o.price
      | none, some o => DayOutcome.entryOrderUnfilled o.breakoutInfo.direction o.price
      | none, none =>
        match st.invalidBreakouts with
        | b :: _ => DayOutcome.breakoutOutsideTimeRange b
        | [] => DayOutcome.noBreakout

/-- `analyzeTradingDay` for one day's candles. -/
def analyzeTradingDay (config : Config) (data : List Candle) : DayOutcome :=
  match analyzeDayScan config data with
  | Except.error r => DayOutcome.minStopRejection r
  | Except.ok st =>
    match data with
    | [] => DayOutcome.noData
    | _ :: _ => dayDispatch config data st

/-- The `allTrades` list built by `backtest`: one `DayOutcome` per day, in
order, each day analyzed independently. -/
def backtestAllTrades (config : Config) (days : List (List Candle)) : List DayOutcome :=
  days.map (analyzeTradingDay config)

/-- The exit-reason string used as the grouping key in `calculateStats`
(the fill-candle indices do not appear in the string; the circuit-breaker
string embeds `maxLossPercent`). -/
inductive ReasonTag where
  | preMarketFilled
  | forcedMarketExit
  | targetFilled
  | stopLossFilled
  | circuitBreaker (maxLossPercent : ℚ)
  | marketClose
deriving DecidableEq, Repr

/-- Map an exit reason to its grouping key. -/
def reasonTag : ExitReason → ReasonTag
  | ExitReason.preMarketFilled _ _ => ReasonTag.preMarketFilled
  | ExitReason.forcedMarketExit => ReasonTag.forcedMarketExit
  | ExitReason.targetFilled _ _ => ReasonTag.targetFilled
  | ExitReason.stopLossFilled _ _ => ReasonTag.stopLossFilled
  | ExitReason.circuitBreaker m => ReasonTag.circuitBreaker m
  | ExitReason.marketClose => ReasonTag.marketClose

/-- One `statisticsByExitReason` group. -/
structure ExitReasonGroup where
  count : ℕ
  totalProfit : ℚ
  averageProfit : ℚ
deriving DecidableEq, Repr

/-- Add one trade's net profit to the per-exit-reason groups. -/
def addToGroups (gs : List (ReasonTag × ExitReasonGroup)) (k : ReasonTag) (p : ℚ) :
    List (ReasonTag × ExitReasonGroup) :=
  match gs with
  | [] => [(k, { count := 1, totalProfit := p, averageProfit := 0 })]
  | (k', g) :: rest =>
    if k' = k then (k', { g with count := g.count + 1, totalProfit := g.totalProfit + p }) :: rest
    else (k', g) :: addToGroups rest k p

/-- Sum a list of possibly non-finite values; any non-finite summand makes
the whole sum non-finite. -/
def optSum (l : List (Option ℚ)) : Option ℚ :=
  l.foldr (fun a s =>
    match a, s with
    | some x, some y => some (x + y)
    | _, _ => none) (some 0)

/-- `trade.exit.reason === 'stop loss limit order filled'`. -/
def isStopLossFilledExit (r : TradeResult) : Bool :=
  match r.exitReason with
  | ExitReason.stopLossFilled _ _ => true
  | _ => false

/-- `trade.exit.reason === 'target limit order filled'`. -/
def isTargetFilledExit (r : TradeResult) : Bool :=
  match r.exitReason with
  | ExitReason.targetFilled _ _ => true
  | _ => false

/-- `trade.exit.reason === 'pre-market exit limit order filled'`. -/
def isPreMarketFilledExit (r : TradeResult) : Bool :=
  match r.exitReason with
  | ExitReason.preMarketFilled _ _ => true
  | _ => false

/-- `trade.exit.reason === 'forced market exit'`. -/
def isForcedMarketExit (r : TradeResult) : Bool :=
  match r.exitReason with
  | ExitReason.forcedMarketExit => true
  | _ => false

/-- `stopLossExitDetails.totalPriceUpdates`. -/
def stopLossUpdateCount (r : TradeResult) : ℕ :=
  ((r.stopLossOrder).map (fun o => o.priceUpdates.length)).getD 0

/-- `targetExitDetails.totalPriceUpdates`. -/
def targetUpdateCount (r : TradeResult) : ℕ :=
  ((r.targetOrder).map (fun o => o.priceUpdates.length)).getD 0

/-- `preMarketExitDetails.totalPriceUpdates`. -/
def preMarketUpdateCount (r : TradeResult) : ℕ :=
  ((r.preMarketOrder).map (fun o => o.priceUpdates.length)).getD 0

/-- The `stopLossExitAnalysis` block. -/
structure StopLossAnalysis where
  totalDynamicStopLossExits : ℕ
  totalCircuitBreakerExits : ℕ
  totalTradesWithStopLossBreach : ℕ
  totalTradesWithDynamicAdjustment : ℕ
  averageProfitDynamicStopLossExits : ℚ
  averageProfitCircuitBreakerExits : ℚ
  averageStopLossPriceUpdates : ℚ
deriving DecidableEq, Repr

/-- The `targetExitAnalysis` block. -/
structure TargetAnalysis where
  totalTargetLimitOrderExits : ℕ
  totalTradesWithTargetHit : ℕ
  totalTradesWithDynamicAdjustment : ℕ
  targetLimitOrderFillRate : ℚ
  averageProfitTargetLimitOrderExits : ℚ
  averageTargetPriceUpdates : ℚ
deriving DecidableEq, Repr

/-- The `preMarketExitAnalysis` block (price-improvement averages omitted). -/
structure PreMarketAnalysis where
  totalPreMarketExits : ℕ
  totalForcedMarketExits : ℕ
  totalTradesWithPreMarketOrders : ℕ
  totalTradesWithDynamicPricing : ℕ
  preMarketOrderFillRate : ℚ
  averageProfitPreMarketExits : ℚ
  averageProfitForcedExits : ℚ
  averagePriceUpdatesPerTrade : ℚ
  dynamicPricingFillRate : ℚ
deriving DecidableEq, Repr

/-- The `entryOrderAnalysis` block. -/
structure EntryOrderAnalysisR where
  totalTradesWithEntryOrders : ℕ
  totalTradesWithEntryPriceUpdates : ℕ
  entryOrderFillRate : ℚ
  averageEntryPriceUpdates : ℚ
  averageEntryPriceImprovement : ℚ
  dynamicEntryPricingFillRate : ℚ
deriving DecidableEq, Repr

/-- The statistics document produced by `calculateStats` (the fields the
engine computes from the day outcomes; `Option ℚ` fields are `none` when
the JS computation produced a non-finite number). -/
structure Stats where
  totalGrossProfit : ℚ
  totalNetProfit : ℚ
  averageGrossProfitPerTrade : ℚ
  averageNetProfitPerTrade : ℚ
  totalFees : ℚ
  totalGrossReturnPercentage : Option ℚ
  totalNetReturnPercentage : Option ℚ
  averageGrossProfitPercentagePerTrade : Option ℚ
  averageNetProfitPercentagePerTrade : Option ℚ
  positiveDays : ℕ
  negativeDays : ℕ
  statisticsByExitReason : List (ReasonTag × ExitReasonGroup)
  winRate : ℚ
  actualAverageRR : Option ℚ
  stopLossExitAnalysis : Option StopLossAnalysis
  targetExitAnalysis : Option TargetAnalysis
  preMarketExitAnalysis : Option PreMarketAnalysis
  entryOrderAnalysis : Option EntryOrderAnalysisR
  minimumStopLossRejections : ℕ
deriving DecidableEq

set_option maxHeartbeats 1000000 in
/-- `calculateStats`: reduce the list of day outcomes into the statistics
document.  In the source, `trade.profit`, `trade.netProfit` and their
percentage twins hold identical values on every trade result, so the
`netProfit || profit || 0` cascades read the net profit; the
`grossProfit || profit || 0` cascade falls back to the net profit when the
gross profit is `0` (mirrored via `jsOrQ`). -/
def calculateStats (trades : List DayOutcome) (capital : Capital) (config : Config) : Stats :=
  let actualTrades : List TradeResult := trades.filterMap DayOutcome.tradeResult?
  let n := actualTrades.length
  let totalGrossProfit := (actualTrades.map (fun r => jsOrQ r.grossProfit r.netProfit)).sum
  let totalNetProfit := (actualTrades.map (fun r => r.netProfit)).sum
  let averageGrossProfitPerTrade := if 0 < n then totalGrossProfit / n else 0
  let averageNetProfitPerTrade := if 0 < n then totalNetProfit / n else 0
  let totalFees := (actualTrades.map (fun r => r.totalFees)).sum
  let totalGrossReturnPercentage : Option ℚ :=
    if capital.initial = 0 then none else some ((totalGrossProfit / capital.initial) * 100)
  let totalNetReturnPercentage : Option ℚ :=
    if capital.initial = 0 then none else some ((totalNetProfit / capital.initial) * 100)
  let pctContribution : (TradeResult → Option ℚ) → (TradeResult → Option ℚ) →
      TradeResult → Option ℚ := fun f g r =>
    match f r, g r with
    | some v, some w => some (jsOrQ v w)
    | _, _ => none
  let averageGrossProfitPercentagePerTrade : Option ℚ :=
    if 0 < n then
      (optSum (actualTrades.map
        (pctContribution TradeResult.grossProfitPercentage TradeResult.netProfitPercentage))).map
        (fun s => s / n)
    else some 0
  let averageNetProfitPercentagePerTrade : Option ℚ :=
    if 0 < n then
      (optSum (actualTrades.map
        (pctContribution TradeResult.netProfitPercentage TradeResult.netProfitPercentage))).map
        (fun s => s / n)
    else some 0
  let winningDays := actualTrades.filter (fun r => r.netProfit > 0)
  let losingDays := actualTrades.filter (fun r => r.netProfit ≤ 0)
  let positiveDays := winningDays.length
  let negativeDays := losingDays.length
  let groups := actualTrades.foldl (fun gs r => addToGroups gs (reasonTag r.exitReason) r.netProfit) []
  let statisticsByExitReason := groups.map (fun kg =>
    (kg.1, { kg.2 with averageProfit := kg.2.totalProfit / kg.2.count }))
  let stopLossExitAnalysis : Option StopLossAnalysis :=
    if config.stopLossExitConfig.enabled then
      let stopLossLimitOrderExits := actualTrades.filter (fun r => isStopLossFilledExit r)
      let circuitBreakerExits := actualTrades.filter (fun r => r.circuitBreakerTriggered)
      let tradesWithStopLossBreach := actualTrades.filter (fun r => r.stopLossBreached)
      let tradesWithDynamicStopLossAdjustment :=
        actualTrades.filter (fun r => 0 < stopLossUpdateCount r)
      some
        { totalDynamicStopLossExits := stopLossLimitOrderExits.length
          totalCircuitBreakerExits := circuitBreakerExits.length
          totalTradesWithStopLossBreach := tradesWithStopLossBreach.length
          totalTradesWithDynamicAdjustment := tradesWithDynamicStopLossAdjustment.length
          averageProfitDynamicStopLossExits :=
            if 0 < stopLossLimitOrderExits.length then
              (stopLossLimitOrderExits.map (fun r => r.netProfit)).sum / stopLossLimitOrderExits.length
            else 0
          averageProfitCircuitBreakerExits :=
            if 0 < circuitBreakerExits.length then
              (circuitBreakerExits.map (fun r => r.netProfit)).sum / circuitBreakerExits.length
            else 0
          averageStopLossPriceUpdates :=
            if 0 < tradesWithDynamicStopLossAdjustment.length then
              ((tradesWithDynamicStopLossAdjustment.map (fun r => (stopLossUpdateCount r : ℚ))).sum) /
                tradesWithDynamicStopLossAdjustment.length
            else 0 }
    else none
  let targetExitAnalysis : Option TargetAnalysis :=
    if config.targetExitConfig.enabled then
      let targetLimitOrderExits := actualTrades.filter (fun r => isTargetFilledExit r)
      let tradesWithTargetHit := actualTrades.filter (fun r => r.targetHit)
      let tradesWithDynamicTargetAdjustment :=
        actualTrades.filter (fun r => 0 < targetUpdateCount r)
      some
        { totalTargetLimitOrderExits := targetLimitOrderExits.length
          totalTradesWithTargetHit := tradesWithTargetHit.length
          totalTradesWithDynamicAdjustment := tradesWithDynamicTargetAdjustment.length
          targetLimitOrderFillRate :=
            if 0 < tradesWithTargetHit.length then
              ((targetLimitOrderExits.length : ℚ) / tradesWithTargetHit.length) * 100
            else 0
          averageProfitTargetLimitOrderExits :=
            if 0 < targetLimitOrderExits.length then
              (targetLimitOrderExits.map (fun r => r.netProfit)).sum / targetLimitOrderExits.length
            else 0
          averageTargetPriceUpdates :=
            if 0 < tradesWithDynamicTargetAdjustment.length then
              ((tradesWithDynamicTargetAdjustment.map (fun r => (targetUpdateCount r : ℚ))).sum) /
                tradesWithDynamicTargetAdjustment.length
            else 0 }
    else none
  let preMarketExitAnalysis : Option PreMarketAnalysis :=
    if config.marketExitTime.enabled then
      let preMarketExits := actualTrades.filter (fun r => isPreMarketFilledExit r)
      let forcedMarketExits := actualTrades.filter (fun r => isForcedMarketExit r)
      let tradesWithPreMarketOrders := actualTrades.filter (fun r => r.preMarketOrder.isSome)
      let tradesWithDynamicPricing := actualTrades.filter (fun r =>
        config.marketExitTime.dynamicPriceAdjustment ∧ 0 < preMarketUpdateCount r)
      some
        { totalPreMarketExits := preMarketExits.length
          totalForcedMarketExits := forcedMarketExits.length
          totalTradesWithPreMarketOrders := tradesWithPreMarketOrders.length
          totalTradesWithDynamicPricing := tradesWithDynamicPricing.length
          preMarketOrderFillRate :=
            if 0 < tradesWithPreMarketOrders.length then
              ((preMarketExits.length : ℚ) / tradesWithPreMarketOrders.length) * 100
            else 0
          averageProfitPreMarketExits :=
            if 0 < preMarketExits.length then
              (preMarketExits.map (fun r => r.netProfit)).sum / preMarketExits.length
            else 0
          averageProfitForcedExits :=
            if 0 < forcedMarketExits.length then
              (forcedMarketExits.map (fun r => r.netProfit)).sum / forcedMarketExits.length
            else 0
          averagePriceUpdatesPerTrade :=
            if 0 < tradesWithDynamicPricing.length then
              ((tradesWithDynamicPricing.map (fun r => (preMarketUpdateCount r : ℚ))).sum) /
                tradesWithDynamicPricing.length
            else 0
          dynamicPricingFillRate :=
            if 0 < tradesWithDynamicPricing.length then
              (((tradesWithDynamicPricing.filter (fun r => isPreMarketFilledExit r)).length : ℚ) /
                tradesWithDynamicPricing.length) * 100
            else 0 }
    else none
  let actualAverageRR : Option ℚ :=
    if 0 < n then
      (optSum (actualTrades.map (fun r =>
        if r.riskPoints * (r.shares : ℚ) = 0 then none
        else some (r.netProfit / (r.riskPoints * (r.shares : ℚ)))))).map (fun s => s / n)
    else some 0
  let winRate := if 0 < n then ((positiveDays : ℚ) / n) * 100 else 0
  let tradesWithEntryOrders := actualTrades
  let entryOrderAnalysis : Option EntryOrderAnalysisR :=
    if 0 < tradesWithEntryOrders.length then
      let tradesWithEntryPriceUpdates := tradesWithEntryOrders.filter (fun r =>
        0 < r.entryOrderDetails.priceUpdates.length)
      some
        { totalTradesWithEntryOrders := tradesWithEntryOrders.length
          totalTradesWithEntryPriceUpdates := tradesWithEntryPriceUpdates.length
          entryOrderFillRate :=
            if 0 < n then ((tradesWithEntryOrders.length : ℚ) / n) * 100 else 0
          averageEntryPriceUpdates :=
            if 0 < tradesWithEntryPriceUpdates.length then
              ((tradesWithEntryPriceUpdates.map
                (fun r => (r.entryOrderDetails.priceUpdates.length : ℚ))).sum) /
                tradesWithEntryPriceUpdates.length
            else 0
          averageEntryPriceImprovement :=
            if 0 < tradesWithEntryOrders.length then
              ((tradesWithEntryOrders.map (fun r =>
                match r.type with
                | Direction.long =>
                  r.entryOrderDetails.originalOrderPrice - r.entryOrderDetails.finalOrderPrice
                | Direction.short =>
                  r.entryOrderDetails.finalOrderPrice - r.entryOrderDetails.originalOrderPrice)).sum) /
                tradesWithEntryOrders.length
            else 0
          dynamicEntryPricingFillRate :=
            if 0 < tradesWithEntryPriceUpdates.length then
              ((tradesWithEntryPriceUpdates.length : ℚ) / tradesWithEntryOrders.length) * 100
            else 0 }
    else none
  let minimumStopLossRejections :=
    (trades.filter (fun t =>
      match t with
      | DayOutcome.minStopRejection _ => true
      | _ => false)).length
  { totalGrossProfit := totalGrossProfit
    totalNetProfit := totalNetProfit
    averageGrossProfitPerTrade := averageGrossProfitPerTrade
    averageNetProfitPerTrade := averageNetProfitPerTrade
    totalFees := totalFees
    totalGrossReturnPercentage := totalGrossReturnPercentage
    totalNetReturnPercentage := totalNetReturnPercentage
    averageGrossProfitPercentagePerTrade := averageGrossProfitPercentagePerTrade
    averageNetProfitPercentagePerTrade := averageNetProfitPercentagePerTrade
    positiveDays := positiveDays
    negativeDays := negativeDays
    statisticsByExitReason := statisticsByExitReason
    winRate := winRate
    actualAverageRR := actualAverageRR
    stopLossExitAnalysis := stopLossExitAnalysis
    targetExitAnalysis := targetExitAnalysis
    preMarketExitAnalysis := preMarketExitAnalysis
    entryOrderAnalysis := entryOrderAnalysis
    minimumStopLossRejections := minimumStopLossRejections }


/-- Whether a day outcome is an actual trade. -/
def isTradeOutcome (d : DayOutcome) : Bool := d.tradeResult?.isSome

/-- The entry price of a trade outcome (`0` for non-trades). -/
def tradeEntryPrice (d : DayOutcome) : ℚ := (d.tradeResult?.map TradeResult.entryPrice).getD 0

/-- The stop-loss price of a trade outcome (`0` for non-trades). -/
def tradeStopLoss (d : DayOutcome) : ℚ := (d.tradeResult?.map TradeResult.stopLoss).getD 0

/-- A configuration with only the pullback-entry order machinery active:
no entry window, no market-exit schedule, no volume check, no stop-loss or
target exits, no price rounding, no fees, no leverage. -/
def cfgA : Config where
  minThreshold := 30
  maxThreshold := 300
  riskRewardRatio := 1
  pullbackPercentage := 80
  minimumStopLossPercent := 1/2
  entryTimeRange := ⟨false, 0, 0⟩
  marketExitTime := ⟨false, 0, 10, false⟩
  volumeConfirmation := ⟨false, 3, 5⟩
  stopLossExitConfig := ⟨false, false, 0, false⟩
  targetExitConfig := ⟨false, false⟩
  entryOrderConfig := ⟨true, false⟩
  priceRounding := ⟨false, 1/20⟩
  capital := ⟨10000, 100, 1, 0⟩

/-- A day with a long breakout at `100` over a stop of `99.5` (exactly the
`0.5%` minimum), a pullback to `99.6`, an entry order at `99.55` and its
fill two candles later. -/
def dayC2 : List Candle :=
  [ ⟨555, 995/10, 1001/10, 994/10, 100, 0⟩,
    ⟨600, 100, 1003/10, 100, 1002/10, 0⟩,
    ⟨605, 999/10, 9995/100, 995/10, 9955/100, 0⟩,
    ⟨610, 997/10, 9975/100, 9965/100, 997/10, 0⟩,
    ⟨615, 996/10, 9965/100, 9935/100, 996/10, 0⟩,
    ⟨620, 997/10, 9985/100, 9965/100, 998/10, 0⟩ ]



/-- The target and stop-loss prices of a trade outcome, and further
accessors used by concrete evaluations. -/
def tradeBreakoutPrice (d : DayOutcome) : ℚ := (d.tradeResult?.map TradeResult.breakoutPrice).getD 0

/-- The exit reason of an optional trade result. -/
def exitReasonOf (x : Option TradeResult) : Option ExitReason := x.map TradeResult.exitReason

/-- The exit price of an optional trade result. -/
def exitPriceOf (x : Option TradeResult) : Option ℚ := x.map TradeResult.exitPrice

/-- The `circuitBreakerTriggered` flag of an optional trade result. -/
def circuitBreakerTriggeredOf (x : Option TradeResult) : Option Bool :=
  x.map TradeResult.circuitBreakerTriggered

/-- The recorded pre-market exit order price updates of an optional trade result. -/
def preMarketUpdatesOf (x : Option TradeResult) : List PriceUpdate :=
  (((x.bind TradeResult.preMarketOrder).map Order.priceUpdates).getD [])

/-- The original pre-market exit order price of an optional trade result. -/
def preMarketOriginalPriceOf (x : Option TradeResult) : Option ℚ :=
  (x.bind TradeResult.preMarketOrder).map Order.originalPrice

/-- A configuration whose stop-loss exit is active with a `150%` circuit
breaker and nothing else (no target exit, no market-exit schedule, no
rounding, no fees). -/
def cfgC1 : Config where
  minThreshold := 30
  maxThreshold := 300
  riskRewardRatio := 1
  pullbackPercentage := 10
  minimumStopLossPercent := 0
  entryTimeRange := ⟨false, 0, 0⟩
  marketExitTime := ⟨false, 0, 10, false⟩
  volumeConfirmation := ⟨false, 3, 5⟩
  stopLossExitConfig := ⟨true, false, 150, true⟩
  targetExitConfig := ⟨false, false⟩
  entryOrderConfig := ⟨true, false⟩
  priceRounding := ⟨false, 1/20⟩
  capital := ⟨10000, 100, 1, 0⟩

/-- A long position entered at `100` with stop `99` (riskPoints `1`). -/
def tradeC1 : Entry where
  type := Direction.long
  entryPrice := 100
  entryTimeMin := 555
  target := 200
  stopLoss := 99
  breakoutPrice := 100
  entryOrderDetails := ⟨0, 0, 100, 100, []⟩

/-- A day where the stop is breached at candle 1 (stop-loss limit order
placed at `98.95`) and candle 3 satisfies both the order's fill condition
(`high 99.2 ≥ 98.95`) and the circuit-breaker condition
(`(100 − 98.4)/1 × 100 = 160 ≥ 150`). -/
def dayC1 : List Candle :=
  [ ⟨555, 100, 100, 100, 100, 0⟩,
    ⟨556, 995/10, 996/10, 989/10, 9895/100, 0⟩,
    ⟨557, 989/10, 99, 988/10, 989/10, 0⟩,
    ⟨558, 99, 996/10, 492/5, 986/10, 0⟩ ]

/-- A configuration with only the scheduled pre-close exit active: exit
time `15:09` (minute 909), pre-exit limit order 10 minutes earlier,
dynamic price adjustment on. -/
def cfgC6 : Config where
  minThreshold := 30
  maxThreshold := 300
  riskRewardRatio := 1
  pullbackPercentage := 10
  minimumStopLossPercent := 0
  entryTimeRange := ⟨false, 0, 0⟩
  marketExitTime := ⟨true, 909, 10, true⟩
  volumeConfirmation := ⟨false, 3, 5⟩
  stopLossExitConfig := ⟨false, false, 0, false⟩
  targetExitConfig := ⟨false, false⟩
  entryOrderConfig := ⟨true, false⟩
  priceRounding := ⟨false, 1/20⟩
  capital := ⟨10000, 100, 1, 0⟩

/-- A long position entered at `100` just before the pre-close window. -/
def tradeC6 : Entry where
  type := Direction.long
  entryPrice := 100
  entryTimeMin := 890
  target := 200
  stopLoss := 99
  breakoutPrice := 100
  entryOrderDetails := ⟨0, 0, 100, 100, []⟩

/-- A day where the pre-close sell order is placed at `100` (candle 1,
14:59), then chased DOWN to `99` on candle 3 while the price falls, and
filled at `99` on candle 4 — one point worse than the level the order had
already guaranteed. -/
def dayC6 : List Candle :=
  [ ⟨890, 100, 100, 100, 100, 0⟩,
    ⟨899, 100, 1002/10, 998/10, 100, 0⟩,
    ⟨900, 998/10, 999/10, 996/10, 997/10, 0⟩,
    ⟨901, 994/10, 995/10, 99, 99, 0⟩,
    ⟨902, 991/10, 992/10, 989/10, 991/10, 0⟩ ]

/-- C2 (counterexample): at breakout price `100` with stop `99.5` the
minimum-stop check passes with exactly `0.5%`, but the position entered on
the pullback at `99.55` has stop distance `0.05/99.55 × 100 ≈ 0.0502% <
0.5%`: the invariant measured at the actual entry price fails. -/
theorem C2_counterexample :
    isTradeOutcome (analyzeTradingDay cfgA dayC2) = true ∧
    cfgA.minimumStopLossPercent > 0 ∧
    |tradeEntryPrice (analyzeTradingDay cfgA dayC2) - tradeStopLoss (analyzeTradingDay cfgA dayC2)| /
      tradeEntryPrice (analyzeTradingDay cfgA dayC2) * 100 < cfgA.minimumStopLossPercent := by
  with_unfolding_all decide

/-- C1 (counterexample): on candle 3 of `dayC1` the pending stop-loss
limit order's fill condition (`high 99.2 ≥ 98.95`) and the circuit-breaker
condition (`(100 − 98.4)/1 × 100 = 160 ≥ 150`) both hold, yet the trade
exits by the stop-loss limit-order fill at `98.95` — not by the circuit
breaker at the adverse extreme `98.4`: the fill check runs first. -/
theorem C1_counterexample :
    cfgC1.stopLossExitConfig.enabled = true ∧
    cfgC1.stopLossExitConfig.forceMarketOrderAfterMax = true ∧
    cfgC1.stopLossExitConfig.maxLossPercent = 150 ∧
    (dayC1.get? 3).map Candle.low = some (492/5) ∧
    ((tradeC1.entryPrice - 492/5) / (tradeC1.entryPrice - tradeC1.stopLoss)) * 100 ≥
      cfgC1.stopLossExitConfig.maxLossPercent ∧
    exitReasonOf (simulateTrade cfgC1 cfgC1.capital tradeC1 dayC1) =
      some (ExitReason.stopLossFilled 1 3) ∧
    exitPriceOf (simulateTrade cfgC1 cfgC1.capital tradeC1 dayC1) = some (9895/100) ∧
    circuitBreakerTriggeredOf (simulateTrade cfgC1 cfgC1.capital tradeC1 dayC1) = some false := by
  with_unfolding_all decide

/-- C6 (counterexample): the pre-close exit order of a long position is
placed at `100`, then its dynamic chase reprices it DOWN to `99`
(a strictly worse level for the seller), and it fills at `99`: the chase
degrades a level already guaranteed. -/
theorem C6_counterexample :
    tradeC6.type = Direction.long ∧
    preMarketOriginalPriceOf (simulateTrade cfgC6 cfgC6.capital tradeC6 dayC6) = some 100 ∧
    preMarketUpdatesOf (simulateTrade cfgC6 cfgC6.capital tradeC6 dayC6) =
      [{ candleIndex := 3, oldPrice := 100, newPrice := 99 }] ∧
    (99 : ℚ) < 100 ∧
    exitReasonOf (simulateTrade cfgC6 cfgC6.capital tradeC6 dayC6) =
      some (ExitReason.preMarketFilled 1 4) ∧
    exitPriceOf (simulateTrade cfgC6 cfgC6.capital tradeC6 dayC6) = some 99 := by
  with_unfolding_all decide



/-- A day identical in structure to `dayC2` except that the pullback
candle (index 2) touches the pullback level `99.6` with its low but CLOSES
exactly at `99.6`, not strictly below it. -/
def dayC3 : List Candle :=
  [ ⟨555, 995/10, 1001/10, 994/10, 100, 0⟩,
    ⟨600, 100, 1003/10, 100, 1002/10, 0⟩,
    ⟨605, 999/10, 9995/100, 995/10, 498/5, 0⟩ ]

/-- C3 (counterexample): candle 2 of `dayC3` touches the pullback level
(`low 99.5 ≤ 99.6`) with the entry window open, yet no entry order is
placed and the day ends as "breakout but no pullback entry": placement
additionally requires the close strictly below the pullback level. -/
theorem C3_counterexample :
    (dayC3.get? 2).map Candle.low = some (199/2) ∧
    (dayC3.get? 2).map Candle.close = some (498/5) ∧
    ((199 : ℚ)/2) ≤ 498/5 ∧
    isEntryTimeAllowed 605 cfgA = true ∧
    analyzeTradingDay cfgA dayC3 = DayOutcome.breakoutNoPullback Direction.long 100 (498/5) := by
  with_unfolding_all decide

/-- C3 (amended): an entry order is placed at the rounded close exactly
when the candle touches the pullback level AND closes strictly beyond it
(below for long, above for short), the entry window is open, and no entry
or entry order exists for that direction. -/
theorem C3_amended :
    (∀ (config : Config) (st : DetectorState) (b : BreakoutEvent) (i : ℕ) (c : Candle),
      st.pendingLongBreakout = some b → st.longEntry = none →
      st.pendingLongEntryOrder = none →
      c.low ≤ b.pullbackEntryPrice → c.close < b.pullbackEntryPrice →
      isEntryTimeAllowed c.timeMin config = true →
      (placeLongEntryOrder config st i c).pendingLongEntryOrder = some
        { price := applyPriceRounding c.close config
          originalPrice := applyPriceRounding c.close config
          placedAtCandle := i
          priceUpdates := []
          breakoutInfo := b }) ∧
    (∀ (config : Config) (st : DetectorState) (b : BreakoutEvent) (i : ℕ) (c : Candle),
      st.pendingShortBreakout = some b → st.shortEntry = none →
      st.pendingShortEntryOrder = none →
      c.high ≥ b.pullbackEntryPrice → c.close > b.pullbackEntryPrice →
      isEntryTimeAllowed c.timeMin config = true →
      (placeShortEntryOrder config st i c).pendingShortEntryOrder = some
        { price := applyPriceRounding c.close config
          originalPrice := applyPriceRounding c.close config
          placedAtCandle := i
          priceUpdates := []
          breakoutInfo := b }) := by
  constructor
  · intro config st b i c hb he ho htouch hclose hallow
    unfold placeLongEntryOrder
    rw [hb, he, ho]
    simp [htouch, hclose, hallow]
  · intro config st b i c hb he ho htouch hclose hallow
    unfold placeShortEntryOrder
    rw [hb, he, ho]
    simp [htouch, hclose, hallow]

/-- The pending long breakout of `dayC3`, used for concrete placement. -/
def bC3w : BreakoutEvent := ⟨Direction.long, 100, 498/5, 201/2, 199/2, 600, 45⟩

/-- A scan state holding the pending long breakout of `dayC3`. -/
def stC3w : DetectorState :=
  { initState ⟨555, 995/10, 1001/10, 994/10, 100, 0⟩ with pendingLongBreakout := some bC3w }

/-- A pullback candle that closes strictly below the pullback level. -/
def cC3w : Candle := ⟨605, 999/10, 9995/100, 995/10, 9955/100, 0⟩

/-- C3 (witness): on a candle closing strictly below the pullback level,
the amended placement rule fires and places the order at the rounded
close. -/
theorem C3_amended_witness :
    (placeLongEntryOrder cfgA stC3w 2 cC3w).pendingLongEntryOrder = some
      { price := applyPriceRounding cC3w.close cfgA
        originalPrice := applyPriceRounding cC3w.close cfgA
        placedAtCandle := 2
        priceUpdates := []
        breakoutInfo := bC3w } :=
  C3_amended.1 cfgA stC3w bC3w 2 cC3w (by with_unfolding_all decide)
    (by with_unfolding_all decide) (by with_unfolding_all decide)
    (by with_unfolding_all decide) (by with_unfolding_all decide)
    (by with_unfolding_all decide)



/-- Whether the candle touches the trade's target on the favorable side. -/
def targetTouchedBy (ctx : SimCtx) (c : Candle) : Bool :=
  match ctx.trade.type with
  | Direction.long => c.high ≥ ctx.trade.target
  | Direction.short => c.low ≤ ctx.trade.target

/-- C5: once a target limit order is active, the whole stop-loss block
(breach detection, order placement/fill/chase, circuit breaker) is skipped
and the state passes through unchanged; and a candle that first touches
the target leaves the target phase with an active target order, so the
stop-loss block of that same candle is already suspended (target checks
run before stop-loss checks). -/
theorem C5_target_precedence :
    (∀ (ctx : SimCtx) (st : SimState) (i : ℕ) (c : Candle),
      st.activeTargetOrder ≠ none → stopLossPhase ctx st i c = (st, none)) ∧
    (∀ (ctx : SimCtx) (st : SimState) (i : ℕ) (c : Candle),
      ctx.config.targetExitConfig.enabled = true → st.targetHit = false →
      st.activeTargetOrder = none → targetTouchedBy ctx c = true →
      (targetPhase ctx st i c).1.activeTargetOrder ≠ none) := by
  constructor
  · intro ctx st i c hsome
    unfold stopLossPhase
    have : ¬(ctx.config.stopLossExitConfig.enabled = true ∧ st.activeTargetOrder = none) := by
      intro h
      exact hsome h.2
    simp only [this, if_false]
  · intro ctx st i c hen hhit hnone htouch
    unfold targetPhase targetOrderFillOrUpdate targetHitCheck
    unfold targetTouchedBy at htouch
    simp only [hen, hhit, htouch, hnone]
    simp



/-- A concrete state with an active target order. -/
def stC5w : SimState :=
  { preMarketExitOrder := none
    stopLossBreach := false
    activeStopLossOrder := none
    targetHit := true
    activeTargetOrder := some ⟨201/2, 201/2, 5, []⟩
    maxFavorableExcursion := 0 }

/-- The simulation context of `tradeC1` under `cfgC1`. -/
def ctxC5w : SimCtx := ⟨cfgC1, tradeC1, 100, 1⟩

/-- A candle breaching the stop of `tradeC1`. -/
def cC5w : Candle := ⟨600, 98, 985/10, 975/10, 98, 0⟩

/-- C5 (witness): with a target order active, a candle that breaches the
stop level produces no stop-loss action at all, even though the stop-loss
mechanism is enabled. -/
theorem C5_witness :
    cC5w.low ≤ tradeC1.stopLoss ∧
    ctxC5w.config.stopLossExitConfig.enabled = true ∧
    stopLossPhase ctxC5w stC5w 7 cC5w = (stC5w, none) :=
  ⟨by with_unfolding_all decide, by with_unfolding_all decide,
    C5_target_precedence.1 ctxC5w stC5w 7 cC5w (by with_unfolding_all decide)⟩

/-- The skip-one-candle condition on a recorded exit: a limit-order fill
happens no earlier than two candles after the order's placement. -/
def fillRespectsSkip : ExitReason → Prop
  | ExitReason.preMarketFilled p f => p + 2 ≤ f
  | ExitReason.targetFilled p f => p + 2 ≤ f
  | ExitReason.stopLossFilled p f => p + 2 ≤ f
  | _ => True

/-- `fillRespectsSkip` lifted to an optional exit. -/
def optFillRespectsSkip : Option SimExit → Prop
  | none => True
  | some e => fillRespectsSkip e.reason

/-- Sequencing two phases preserves the skip-one-candle fill condition. -/
theorem phaseThen_skip (r : PhaseResult) (f : SimState → PhaseResult)
    (hr : optFillRespectsSkip r.2) (hf : ∀ st, optFillRespectsSkip (f st).2) :
    optFillRespectsSkip (phaseThen r f).2 := by
  rcases r with ⟨st, e⟩
  cases e with
  | none => exact hf st
  | some ex => exact hr

theorem preMarketFillPhase_skip (ctx : SimCtx) (st : SimState) (i : ℕ) (c : Candle) :
    optFillRespectsSkip (preMarketFillPhase ctx st i c).2 := by
  unfold preMarketFillPhase
  cases ho : st.preMarketExitOrder with
  | none => simp [optFillRespectsSkip]
  | some o =>
    simp only
    split_ifs <;> simp_all [optFillRespectsSkip, fillRespectsSkip] <;> omega

theorem forcedExitPhase_skip (ctx : SimCtx) (st : SimState) (i : ℕ) (c : Candle) :
    optFillRespectsSkip (forcedExitPhase ctx st i c).2 := by
  unfold forcedExitPhase
  split_ifs <;> simp [optFillRespectsSkip, fillRespectsSkip]

theorem targetOrderFillOrUpdate_skip (ctx : SimCtx) (st : SimState) (i : ℕ) (c : Candle) :
    optFillRespectsSkip (targetOrderFillOrUpdate ctx st i c).2 := by
  unfold targetOrderFillOrUpdate
  cases ho : st.activeTargetOrder with
  | none => simp [optFillRespectsSkip]
  | some o =>
    simp only
    split_ifs <;> simp_all [optFillRespectsSkip, fillRespectsSkip] <;> omega

theorem targetPhase_skip (ctx : SimCtx) (st : SimState) (i : ℕ) (c : Candle) :
    optFillRespectsSkip (targetPhase ctx st i c).2 :=
  targetOrderFillOrUpdate_skip ctx (targetHitCheck ctx st i c) i c

theorem stopLossOrderFillOrUpdate_skip (ctx : SimCtx) (st : SimState) (i : ℕ) (c : Candle) :
    optFillRespectsSkip (stopLossOrderFillOrUpdate ctx st i c).2 := by
  unfold stopLossOrderFillOrUpdate
  cases ho : st.activeStopLossOrder with
  | none => simp [optFillRespectsSkip]
  | some o =>
    simp only
    split_ifs <;> simp_all [optFillRespectsSkip, fillRespectsSkip] <;> omega

theorem circuitBreakerCheck_skip (ctx : SimCtx) (st : SimState) (i : ℕ) (c : Candle) :
    optFillRespectsSkip (circuitBreakerCheck ctx st i c).2 := by
  unfold circuitBreakerCheck
  split_ifs
  · split <;> dsimp only <;> split_ifs <;> simp [optFillRespectsSkip, fillRespectsSkip]
  · simp [optFillRespectsSkip]

theorem stopLossPhase_skip (ctx : SimCtx) (st : SimState) (i : ℕ) (c : Candle) :
    optFillRespectsSkip (stopLossPhase ctx st i c).2 := by
  unfold stopLossPhase
  split_ifs
  · exact phaseThen_skip _ _
      (stopLossOrderFillOrUpdate_skip ctx (stopLossBreachCheck ctx st i c) i c)
      (fun st' => circuitBreakerCheck_skip ctx st' i c)
  · simp [optFillRespectsSkip]

theorem simStep_skip (ctx : SimCtx) (st : SimState) (i : ℕ) (c : Candle) :
    optFillRespectsSkip (simStep ctx st i c).2 := by
  unfold simStep
  exact phaseThen_skip _ _
    (preMarketFillPhase_skip ctx (placePreMarketPhase ctx st i c) i c)
    (fun st1 => phaseThen_skip _ _ (forcedExitPhase_skip ctx st1 i c)
      (fun st2 => phaseThen_skip _ _ (targetPhase_skip ctx (mfePhase ctx st2 c) i c)
        (fun st3 => stopLossPhase_skip ctx st3 i c)))

/-- C4: every exit produced by one candle iteration of `simulateTrade`
that records a limit-order fill (pre-market, target or stop-loss) fills at
least two candles after placement; and an entry filled by the entry-order
phase records a fill index at least two candles after the entry order's
placement index. -/
theorem C4_skip_one_candle :
    (∀ (ctx : SimCtx) (st : SimState) (i : ℕ) (c : Candle),
      optFillRespectsSkip (simStep ctx st i c).2) ∧
    (∀ (config : Config) (st : DetectorState) (i : ℕ) (c : Candle) (e : Entry),
      st.longEntry = none → (fillLongEntryOrder config st i c).longEntry = some e →
      e.entryOrderDetails.filledAtCandle = i ∧
      e.entryOrderDetails.orderPlacedAtCandle + 2 ≤ e.entryOrderDetails.filledAtCandle) ∧
    (∀ (config : Config) (st : DetectorState) (i : ℕ) (c : Candle) (e : Entry),
      st.shortEntry = none → (fillShortEntryOrder config st i c).shortEntry = some e →
      e.entryOrderDetails.filledAtCandle = i ∧
      e.entryOrderDetails.orderPlacedAtCandle + 2 ≤ e.entryOrderDetails.filledAtCandle) := by
  refine ⟨fun ctx st i c => simStep_skip ctx st i c, ?_, ?_⟩
  · intro config st i c e he h
    unfold fillLongEntryOrder at h
    rw [he] at h
    cases ho : st.pendingLongEntryOrder with
    | none =>
      rw [ho] at h
      simp at h
      rw [he] at h
      exact Option.noConfusion h
    | some o =>
      rw [ho] at h
      simp only at h
      split_ifs at h <;>
        first
        | (simp at h; rw [he] at h; exact Option.noConfusion h)
        | (simp at h; rcases h with ⟨rfl⟩ | h; · constructor <;> simp_all <;> omega)
        | simp_all <;> omega
  · intro config st i c e he h
    unfold fillShortEntryOrder at h
    rw [he] at h
    cases ho : st.pendingShortEntryOrder with
    | none =>
      rw [ho] at h
      simp at h
      rw [he] at h
      exact Option.noConfusion h
    | some o =>
      rw [ho] at h
      simp only at h
      split_ifs at h <;>
        first
        | (simp at h; rw [he] at h; exact Option.noConfusion h)
        | (simp at h; rcases h with ⟨rfl⟩ | h; · constructor <;> simp_all <;> omega)
        | simp_all <;> omega


/-- A pending long entry order placed at candle 2 at `99.55`. -/
def oC4w : EntryOrder := ⟨9955/100, 9955/100, 2, [], bC3w⟩

/-- A scan state holding the pending long entry order `oC4w`. -/
def stC4w : DetectorState :=
  { initState ⟨555, 995/10, 1001/10, 994/10, 100, 0⟩ with pendingLongEntryOrder := some oC4w }

/-- A candle whose low crosses the entry order price. -/
def cC4w : Candle := ⟨615, 996/10, 9965/100, 9935/100, 996/10, 0⟩

/-- The entry created by filling `oC4w` at candle 4. -/
def eC4w : Entry :=
  ⟨Direction.long, 9955/100, 615, 201/2, 199/2, 100, ⟨2, 4, 9955/100, 9955/100, []⟩⟩

/-- C4 (witness): an entry order placed at candle 2 fills at candle 4 —
two candles later, the earliest the skip-one-candle rule allows. -/
theorem C4_witness :
    stC4w.longEntry = none ∧
    (fillLongEntryOrder cfgA stC4w 4 cC4w).longEntry = some eC4w ∧
    eC4w.entryOrderDetails.filledAtCandle = 4 ∧
    eC4w.entryOrderDetails.orderPlacedAtCandle + 2 ≤ eC4w.entryOrderDetails.filledAtCandle := by
  have he : stC4w.longEntry = none := by with_unfolding_all decide
  have h : (fillLongEntryOrder cfgA stC4w 4 cC4w).longEntry = some eC4w := by
    with_unfolding_all decide
  exact ⟨he, h, (C4_skip_one_candle.2.1 cfgA stC4w 4 cC4w eC4w he h).1,
    (C4_skip_one_candle.2.1 cfgA stC4w 4 cC4w eC4w he h).2⟩

/-- The candle's adverse extreme for the open position (low for long, high
for short). -/
def adverseExtremeOf (ctx : SimCtx) (c : Candle) : ℚ :=
  match ctx.trade.type with
  | Direction.long => c.low
  | Direction.short => c.high

/-- The circuit-breaker loss percentage of the candle:
`|entry − adverse extreme| / riskPoints × 100` as the code computes it. -/
def adverseLossPct (ctx : SimCtx) (c : Candle) : ℚ :=
  ((match ctx.trade.type with
    | Direction.long => ctx.trade.entryPrice - c.low
    | Direction.short => c.high - ctx.trade.entryPrice) / ctx.riskPoints) * 100

/-- Whether the candle satisfies the pending stop-loss order's fill
(recovery) condition. -/
def slFillTouched (ctx : SimCtx) (c : Candle) (o : Order) : Bool :=
  match ctx.trade.type with
  | Direction.long => c.high ≥ o.price
  | Direction.short => c.low ≤ o.price

theorem circuitBreakerCheck_fires (ctx : SimCtx) (st : SimState) (i : ℕ) (c : Candle)
    (hforce : ctx.config.stopLossExitConfig.forceMarketOrderAfterMax = true)
    (hmax : ctx.config.stopLossExitConfig.maxLossPercent ≠ 0)
    (hloss : adverseLossPct ctx c ≥ ctx.config.stopLossExitConfig.maxLossPercent) :
    circuitBreakerCheck ctx st i c = (st, some
      { price := applyPriceRounding (adverseExtremeOf ctx c) ctx.config
        timeMin := c.timeMin
        candleIndex := i
        reason := ExitReason.circuitBreaker ctx.config.stopLossExitConfig.maxLossPercent }) := by
  unfold circuitBreakerCheck
  unfold adverseLossPct at hloss
  cases htype : ctx.trade.type <;>
    rw [htype] at hloss <;>
    simp_all [adverseExtremeOf, htype]

theorem stopLossOrderFillOrUpdate_noExit (ctx : SimCtx) (st : SimState) (i : ℕ) (c : Candle)
    (hnofill : ∀ o, st.activeStopLossOrder = some o → o.placedAtCandle + 1 < i →
      slFillTouched ctx c o = false) :
    (stopLossOrderFillOrUpdate ctx st i c).2 = none := by
  unfold stopLossOrderFillOrUpdate
  cases ho : st.activeStopLossOrder with
  | none => simp
  | some o =>
    simp only
    have hf := hnofill o ho
    unfold slFillTouched at hf
    split_ifs <;> simp_all

/-- C1 (amended): once the loss percentage reaches `maxLossPercent` (with
the stop-loss exit enabled, `forceMarketOrderAfterMax` set, a truthy
`maxLossPercent`, no active target order, and no same-candle stop-loss
order fill — the fill check runs first), the candle exits with the
circuit-breaker reason at the rounded adverse extreme. -/
theorem C1_amended (ctx : SimCtx) (st : SimState) (i : ℕ) (c : Candle)
    (hen : ctx.config.stopLossExitConfig.enabled = true)
    (hforce : ctx.config.stopLossExitConfig.forceMarketOrderAfterMax = true)
    (hmax : ctx.config.stopLossExitConfig.maxLossPercent ≠ 0)
    (htgt : st.activeTargetOrder = none)
    (hloss : adverseLossPct ctx c ≥ ctx.config.stopLossExitConfig.maxLossPercent)
    (hnofill : ∀ o, (stopLossBreachCheck ctx st i c).activeStopLossOrder = some o →
      o.placedAtCandle + 1 < i → slFillTouched ctx c o = false) :
    (stopLossPhase ctx st i c).2 = some
      { price := applyPriceRounding (adverseExtremeOf ctx c) ctx.config
        timeMin := c.timeMin
        candleIndex := i
        reason := ExitReason.circuitBreaker ctx.config.stopLossExitConfig.maxLossPercent } := by
  unfold stopLossPhase
  rw [if_pos ⟨hen, htgt⟩]
  rcases hp : stopLossOrderFillOrUpdate ctx (stopLossBreachCheck ctx st i c) i c with ⟨st3, e3⟩
  have hne := stopLossOrderFillOrUpdate_noExit ctx (stopLossBreachCheck ctx st i c) i c hnofill
  rw [hp] at hne
  simp only at hne
  subst hne
  unfold phaseThen
  simp only
  rw [circuitBreakerCheck_fires ctx st3 i c hforce hmax hloss]

/-- The simulation context of `tradeC1` under `cfgC1`. -/
def ctxC1w : SimCtx := ⟨cfgC1, tradeC1, 100, 1⟩

/-- A state with the stop already breached and a stop-loss order at
`98.95` placed at candle 1. -/
def stC1w : SimState :=
  { preMarketExitOrder := none
    stopLossBreach := true
    activeStopLossOrder := some ⟨9895/100, 9895/100, 1, []⟩
    targetHit := false
    activeTargetOrder := none
    maxFavorableExcursion := 0 }

/-- A candle whose high (`98.55`) stays below the stop-loss order price
(no fill) while its low (`98.4`) pushes the loss to `160% ≥ 150%`. -/
def cC1w : Candle := ⟨558, 985/10, 9855/100, 492/5, 985/10, 0⟩

/-- C1 (witness): with no same-candle stop-loss order fill, the circuit
breaker exits at the rounded adverse extreme `98.4`. -/
theorem C1_amended_witness :
    (stopLossPhase ctxC1w stC1w 3 cC1w).2 = some
      { price := applyPriceRounding (adverseExtremeOf ctxC1w cC1w) ctxC1w.config
        timeMin := 558
        candleIndex := 3
        reason := ExitReason.circuitBreaker 150 } :=
  C1_amended ctxC1w stC1w 3 cC1w (by with_unfolding_all decide)
    (by with_unfolding_all decide) (by with_unfolding_all decide)
    (by with_unfolding_all decide) (by with_unfolding_all decide)
    (by with_unfolding_all decide)



/-- C6 (amended): every reprice of a pending stop-loss limit order moves
only toward the trader's disadvantage (lower for long, higher for short);
every reprice of a pending target limit order moves only toward the
trader's advantage (higher for long, lower for short); every reprice of a
pending entry limit order moves only toward the trader's advantage (lower
for long, higher for short).  (The pre-close exit order's chase is NOT so
constrained: it follows the latest rounded close in both directions.) -/
theorem C6_amended :
    (∀ (ctx : SimCtx) (st : SimState) (i : ℕ) (c : Candle) (o o' : Order),
      st.activeStopLossOrder = some o →
      (stopLossOrderFillOrUpdate ctx st i c).1.activeStopLossOrder = some o' →
      o'.price ≠ o.price →
      ((ctx.trade.type = Direction.long → o'.price < o.price) ∧
       (ctx.trade.type = Direction.short → o.price < o'.price))) ∧
    (∀ (ctx : SimCtx) (st : SimState) (i : ℕ) (c : Candle) (o o' : Order),
      st.activeTargetOrder = some o →
      (targetOrderFillOrUpdate ctx st i c).1.activeTargetOrder = some o' →
      o'.price ≠ o.price →
      ((ctx.trade.type = Direction.long → o.price < o'.price) ∧
       (ctx.trade.type = Direction.short → o'.price < o.price))) ∧
    (∀ (config : Config) (st : DetectorState) (i : ℕ) (c : Candle) (o o' : EntryOrder),
      st.pendingLongEntryOrder = some o →
      (fillLongEntryOrder config st i c).pendingLongEntryOrder = some o' →
      o'.price ≠ o.price → o'.price < o.price) ∧
    (∀ (config : Config) (st : DetectorState) (i : ℕ) (c : Candle) (o o' : EntryOrder),
      st.pendingShortEntryOrder = some o →
      (fillShortEntryOrder config st i c).pendingShortEntryOrder = some o' →
      o'.price ≠ o.price → o.price < o'.price) := by
  refine ⟨?_, ?_, ?_, ?_⟩
  · intro ctx st i c o o' ho h hne
    unfold stopLossOrderFillOrUpdate at h
    rw [ho] at h
    simp only at h
    split_ifs at h <;>
      constructor <;>
      intro htype <;>
      (try cases h) <;>
      simp_all
  · intro ctx st i c o o' ho h hne
    unfold targetOrderFillOrUpdate at h
    rw [ho] at h
    simp only at h
    split_ifs at h <;>
      constructor <;>
      intro htype <;>
      (try cases h) <;>
      simp_all
  · intro config st i c o o' ho h hne
    unfold fillLongEntryOrder at h
    rw [ho] at h
    cases he : st.longEntry with
    | none =>
      rw [he] at h
      simp only at h
      split_ifs at h <;> (try cases h) <;> simp_all
    | some e =>
      rw [he] at h
      simp only at h
      rw [ho] at h
      simp_all
  · intro config st i c o o' ho h hne
    unfold fillShortEntryOrder at h
    rw [ho] at h
    cases he : st.shortEntry with
    | none =>
      rw [he] at h
      simp only at h
      split_ifs at h <;> (try cases h) <;> simp_all
    | some e =>
      rw [he] at h
      simp only at h
      rw [ho] at h
      simp_all



/-- `cfgC1` with the dynamic stop-loss chase enabled. -/
def cfgB : Config := { cfgC1 with stopLossExitConfig := ⟨true, true, 150, true⟩ }

/-- A stop-loss order at `98.95` placed at candle 1. -/
def oC6w : Order := ⟨9895/100, 9895/100, 1, []⟩

/-- The simulation context of `tradeC1` under `cfgB`. -/
def ctxC6w : SimCtx := ⟨cfgB, tradeC1, 100, 1⟩

/-- A state holding the breached stop-loss order `oC6w`. -/
def stC6w : SimState :=
  { preMarketExitOrder := none
    stopLossBreach := true
    activeStopLossOrder := some oC6w
    targetHit := false
    activeTargetOrder := none
    maxFavorableExcursion := 0 }

/-- A candle that does not recover to the order price and closes lower. -/
def cC6w : Candle := ⟨558, 985/10, 986/10, 983/10, 984/10, 0⟩

/-- The stop-loss order after the chase repriced it to `98.4`. -/
def oC6w' : Order := ⟨984/10, 9895/100, 1, [⟨3, 9895/100, 984/10⟩]⟩

/-- C6 (witness): a long position's stop-loss order chase moves the price
down (toward the trader's disadvantage), as the amended rule requires. -/
theorem C6_amended_witness :
    (stopLossOrderFillOrUpdate ctxC6w stC6w 3 cC6w).1.activeStopLossOrder = some oC6w' ∧
    oC6w'.price < oC6w.price := by
  have h : (stopLossOrderFillOrUpdate ctxC6w stC6w 3 cC6w).1.activeStopLossOrder = some oC6w' := by
    with_unfolding_all decide
  refine ⟨h, ?_⟩
  exact (C6_amended.1 ctxC6w stC6w 3 cC6w oC6w oC6w' (by with_unfolding_all decide) h
    (by with_unfolding_all decide)).1 (by with_unfolding_all decide)

/-- C8: every trade result satisfies the fee identities: the entry fee is
`shares × entry price × brokerageFeePercent / 100`, the exit fee is
`shares × exit price × brokerageFeePercent / 100`, the net profit is the
gross profit minus both fees, and `totalFees` is their sum. -/
theorem C8_fee_correctness (config : Config) (capital : Capital) (trade : Entry)
    (data : List Candle) (r : TradeResult)
    (h : simulateTrade config capital trade data = some r) :
    r.netProfit = r.grossProfit - (r.entryFee + r.exitFee) ∧
    r.entryFee = ((r.shares : ℚ) * r.entryPrice) * capital.brokerageFeePercent / 100 ∧
    r.exitFee = ((r.shares : ℚ) * r.exitPrice) * capital.brokerageFeePercent / 100 ∧
    r.totalFees = r.entryFee + r.exitFee := by
  unfold simulateTrade at h
  cases hidx : findEntryIndex trade data with
  | none => rw [hidx] at h; exact absurd h (by simp)
  | some k =>
    rw [hidx] at h
    simp only [Option.some.injEq] at h
    subst h
    exact ⟨rfl, rfl, rfl, rfl⟩

/-- An option that is `some` equals `some` of its `getD` extraction. -/
theorem eq_some_getD {α : Type} (x : Option α) (d : α) (h : x.isSome = true) :
    x = some (x.getD d) := by
  cases x with
  | none => cases h
  | some a => rfl

/-- A default trade result used to extract concrete results. -/
def dummyTradeResult : TradeResult where
  type := Direction.long
  entryPrice := 0
  entryTimeMin := 0
  entryFee := 0
  exitPrice := 0
  exitTimeMin := 0
  exitReason := ExitReason.marketClose
  exitFee := 0
  target := 0
  stopLoss := 0
  shares := 0
  leverage := 1
  grossInvestedAmount := 0
  actualCapitalUsed := 0
  totalFees := 0
  riskPoints := 0
  grossProfit := 0
  netProfit := 0
  grossProfitPercentage := none
  netProfitPercentage := none
  maxFavorableExcursion := 0
  breakoutPrice := 0
  entryOrderDetails := ⟨0, 0, 0, 0, []⟩
  stopLossBreached := false
  circuitBreakerTriggered := false
  stopLossOrder := none
  targetHit := false
  targetOrder := none
  preMarketOrder := none

/-- `cfgC1` with leverage `5` and a `0.06%` brokerage fee. -/
def cfgC8 : Config := { cfgC1 with capital := ⟨10000, 100, 5, 6/100⟩ }

/-- The concrete trade result of `tradeC1` over `dayC1` under `cfgC8`. -/
def rC8w : TradeResult :=
  (simulateTrade cfgC8 cfgC8.capital tradeC1 dayC1).getD dummyTradeResult

/-- C8 (witness): the fee identities on a concrete trade with a nonzero
brokerage fee and leverage. -/
theorem C8_witness :
    simulateTrade cfgC8 cfgC8.capital tradeC1 dayC1 = some rC8w ∧
    rC8w.netProfit = rC8w.grossProfit - (rC8w.entryFee + rC8w.exitFee) ∧
    rC8w.entryFee = ((rC8w.shares : ℚ) * rC8w.entryPrice) * cfgC8.capital.brokerageFeePercent / 100 ∧
    rC8w.exitFee = ((rC8w.shares : ℚ) * rC8w.exitPrice) * cfgC8.capital.brokerageFeePercent / 100 ∧
    rC8w.totalFees = rC8w.entryFee + rC8w.exitFee := by
  have hs : (simulateTrade cfgC8 cfgC8.capital tradeC1 dayC1).isSome = true := by
    with_unfolding_all decide
  have h : simulateTrade cfgC8 cfgC8.capital tradeC1 dayC1 = some rC8w :=
    eq_some_getD _ dummyTradeResult hs
  have hc := C8_fee_correctness cfgC8 cfgC8.capital tradeC1 dayC1 rC8w h
  exact ⟨h, hc.1, hc.2.1, hc.2.2.1, hc.2.2.2⟩

/-- C10: whenever the day scan ends with a filled long entry, the day's
outcome is the simulation of the LONG trade, regardless of any filled
short entry (which is silently discarded). -/
theorem C10_long_priority (config : Config) (data : List Candle) (st : DetectorState)
    (l : Entry) (hscan : analyzeDayScan config data = Except.ok st)
    (hl : st.longEntry = some l) (hne : data ≠ []) :
    analyzeTradingDay config data =
      (simulateTrade config config.capital l data).elim
        DayOutcome.couldNotFindEntry DayOutcome.trade := by
  unfold analyzeTradingDay
  rw [hscan]
  cases data with
  | nil => exact absurd rfl hne
  | cons c0 tl =>
    simp only
    unfold dayDispatch
    rw [hl]



/-- The scan state of a day (for concrete extraction); the initial state
of a zero candle when the scan rejected. -/
def scanStateOf (config : Config) (data : List Candle) : DetectorState :=
  match analyzeDayScan config data with
  | Except.ok st => st
  | Except.error _ => initState ⟨0, 0, 0, 0, 0, 0⟩

/-- Whether the day scan completed without a stop-distance rejection. -/
def isOkScan (config : Config) (data : List Candle) : Bool :=
  match analyzeDayScan config data with
  | Except.ok _ => true
  | Except.error _ => false

theorem scan_eq_ok (config : Config) (data : List Candle)
    (h : isOkScan config data = true) :
    analyzeDayScan config data = Except.ok (scanStateOf config data) := by
  unfold isOkScan at h
  unfold scanStateOf
  cases hx : analyzeDayScan config data with
  | error r => rw [hx] at h; simp at h
  | ok st => rfl

/-- A default entry used to extract concrete entries. -/
def dummyEntry : Entry := ⟨Direction.long, 0, 0, 0, 0, 0, ⟨0, 0, 0, 0, []⟩⟩

/-- `cfgA` with a `50%` pullback and the minimum-stop check disabled. -/
def cfgC10 : Config :=
  { cfgA with pullbackPercentage := 50, minimumStopLossPercent := 0 }

/-- A day in which a long breakout (candle 1), its pullback entry order
(candle 2) and its fill (candle 4) are followed by a short breakout
(candle 5), its pullback entry order (candle 6) and its fill (candle 8):
both a long and a short entry end up filled. -/
def dayC10 : List Candle :=
  [ ⟨555, 100, 1001/10, 989/10, 99, 0⟩,
    ⟨600, 1005/10, 1006/10, 1004/10, 1005/10, 0⟩,
    ⟨605, 996/10, 997/10, 993/10, 994/10, 0⟩,
    ⟨610, 995/10, 9955/100, 9945/100, 995/10, 0⟩,
    ⟨615, 9945/100, 995/10, 9935/100, 9945/100, 0⟩,
    ⟨660, 985/10, 986/10, 984/10, 985/10, 0⟩,
    ⟨665, 999/10, 100, 998/10, 999/10, 0⟩,
    ⟨670, 998/10, 9985/100, 9975/100, 998/10, 0⟩,
    ⟨675, 9985/100, 9995/100, 998/10, 9985/100, 0⟩ ]

/-- The final scan state of `dayC10`. -/
def stC10 : DetectorState := scanStateOf cfgC10 dayC10

/-- The filled long entry of `dayC10`. -/
def lC10 : Entry := stC10.longEntry.getD dummyEntry

/-- C10 (witness): on `dayC10` both the long and the short entry fill, and
the day's outcome is the simulation of the long trade. -/
theorem C10_witness :
    analyzeDayScan cfgC10 dayC10 = Except.ok stC10 ∧
    stC10.longEntry = some lC10 ∧
    stC10.shortEntry.isSome = true ∧
    analyzeTradingDay cfgC10 dayC10 =
      (simulateTrade cfgC10 cfgC10.capital lC10 dayC10).elim
        DayOutcome.couldNotFindEntry DayOutcome.trade := by
  have hok : isOkScan cfgC10 dayC10 = true := by with_unfolding_all decide
  have hscan := scan_eq_ok cfgC10 dayC10 hok
  have hls : stC10.longEntry.isSome = true := by with_unfolding_all decide
  have hl : stC10.longEntry = some lC10 := eq_some_getD _ dummyEntry hls
  have hss : stC10.shortEntry.isSome = true := by with_unfolding_all decide
  exact ⟨hscan, hl, hss,
    C10_long_priority cfgC10 dayC10 stC10 lC10 hscan hl (by with_unfolding_all decide)⟩



/-- C9 (amended): in `calculateStats`, every percentage or average whose
denominator is a count of (a subset of) the actual trades returns `0` when
that count is zero: with no actual trades, the win rate, per-trade
averages, per-trade percentage averages, per-exit-reason groups,
per-mechanism averages and fill rates, and the trade-count guard of the
average risk-reward ratio all yield `0`.  (The per-trade division inside
`actualAverageRR` by `riskPoints × shares`, and the profit percentages of
`simulateTrade` with denominator `actualCapitalUsed`, have no such guard —
see the counterexample.) -/
theorem C9_amended (trades : List DayOutcome) (capital : Capital) (config : Config)
    (h : ∀ t ∈ trades, t.tradeResult? = none) :
    (calculateStats trades capital config).winRate = 0 ∧
    (calculateStats trades capital config).averageGrossProfitPerTrade = 0 ∧
    (calculateStats trades capital config).averageNetProfitPerTrade = 0 ∧
    (calculateStats trades capital config).averageGrossProfitPercentagePerTrade = some 0 ∧
    (calculateStats trades capital config).averageNetProfitPercentagePerTrade = some 0 ∧
    (calculateStats trades capital config).actualAverageRR = some 0 ∧
    (calculateStats trades capital config).statisticsByExitReason = [] ∧
    (∀ a, (calculateStats trades capital config).stopLossExitAnalysis = some a →
      a.averageProfitDynamicStopLossExits = 0 ∧ a.averageProfitCircuitBreakerExits = 0 ∧
      a.averageStopLossPriceUpdates = 0) ∧
    (∀ a, (calculateStats trades capital config).targetExitAnalysis = some a →
      a.targetLimitOrderFillRate = 0 ∧ a.averageProfitTargetLimitOrderExits = 0 ∧
      a.averageTargetPriceUpdates = 0) ∧
    (∀ a, (calculateStats trades capital config).preMarketExitAnalysis = some a →
      a.preMarketOrderFillRate = 0 ∧ a.averageProfitPreMarketExits = 0 ∧
      a.averageProfitForcedExits = 0 ∧ a.averagePriceUpdatesPerTrade = 0 ∧
      a.dynamicPricingFillRate = 0) ∧
    (calculateStats trades capital config).entryOrderAnalysis = none := by
  have hempty : trades.filterMap DayOutcome.tradeResult? = [] :=
    List.filterMap_eq_nil.mpr h
  unfold calculateStats
  rw [hempty]
  refine ⟨by simp, by simp, by simp, by simp, by simp, by simp, by simp, ?_, ?_, ?_, by simp⟩ <;>
    (intro a ha
     dsimp only at ha
     split_ifs at ha <;> (try cases ha) <;> simp_all)

/-- `cfgC1` with capital too small to buy a single share at `100`. -/
def cfgC9 : Config := { cfgC1 with capital := ⟨50, 100, 1, 0⟩ }

/-- A trade result with `shares = 0` (so `riskPoints × shares = 0`) and a
nonzero net profit. -/
def rC9w : TradeResult := { dummyTradeResult with riskPoints := 1, netProfit := 5 }

/-- C9 (counterexample): with one actual trade whose
`riskPoints × shares = 0`, the per-trade division inside `actualAverageRR`
divides by zero, so the result is not the number `0` (in JS it is
`Infinity`); and a simulated trade with `actualCapitalUsed = 0` gets a
non-number profit percentage (in JS `NaN`), not `0`. -/
theorem C9_counterexample :
    rC9w.riskPoints * (rC9w.shares : ℚ) = 0 ∧
    rC9w.netProfit ≠ 0 ∧
    (calculateStats [DayOutcome.trade rC9w] cfgC1.capital cfgC1).actualAverageRR = none ∧
    (simulateTrade cfgC9 cfgC9.capital tradeC1 dayC1).isSome = true ∧
    ((simulateTrade cfgC9 cfgC9.capital tradeC1 dayC1).map TradeResult.actualCapitalUsed) =
      some 0 ∧
    ((simulateTrade cfgC9 cfgC9.capital tradeC1 dayC1).bind TradeResult.netProfitPercentage) =
      none := by
  with_unfolding_all decide



/-- C9 (witness): the guards on a concrete day list with no actual
trades. -/
theorem C9_amended_witness :
    (calculateStats [DayOutcome.noBreakout] cfgC1.capital cfgC1).winRate = 0 ∧
    (calculateStats [DayOutcome.noBreakout] cfgC1.capital cfgC1).actualAverageRR = some 0 ∧
    (calculateStats [DayOutcome.noBreakout] cfgC1.capital cfgC1).entryOrderAnalysis = none := by
  have hc := C9_amended [DayOutcome.noBreakout] cfgC1.capital cfgC1 (by with_unfolding_all decide)
  exact ⟨hc.1, hc.2.2.2.2.2.1, hc.2.2.2.2.2.2.2.2.2.2⟩



theorem detectHigh_error (config : Config) (data : List Candle) (st : DetectorState)
    (i : ℕ) (c : Candle) (r : StopRejection)
    (h : detectHigh config data st i c = Except.error r) :
    r.minimumStopLossRejection = true := by
  unfold detectHigh at h
  dsimp only at h
  split at h
  all_goals try exact (Except.noConfusion h)
  cases hA : detectHighAttempt config data st i c
      (calculateTimeDiffInMinutes c.timeMin st.previousHighTime) with
  | error r' =>
    rw [hA] at h
    dsimp only at h
    cases h
    have hAe := hA
    unfold detectHighAttempt at hAe
    by_cases h1 : isTimeThresholdMet (calculateTimeDiffInMinutes c.timeMin st.previousHighTime)
        config = true ∧ st.pendingLongBreakout = none ∧ st.longEntry = none
    · rw [if_pos h1] at hAe
      by_cases h2 : isVolumeConfirmationMet data i config = true
      · rw [if_pos h2] at hAe
        dsimp only at hAe
        by_cases h3 : isMinimumStopLossPercentMet (applyPriceRounding st.previousHighPrice config)
            (applyPriceRounding st.lowestSinceLastHigh config) config = true
        · rw [if_pos h3] at hAe
          exact (Except.noConfusion hAe)
        · rw [if_neg h3] at hAe
          cases hAe
          rfl
      · rw [if_neg h2] at hAe
        exact (Except.noConfusion hAe)
    · rw [if_neg h1] at hAe
      exact (Except.noConfusion hAe)
  | ok st' =>
    rw [hA] at h
    dsimp only at h
    exact (Except.noConfusion h)

theorem detectLow_error (config : Config) (data : List Candle) (st : DetectorState)
    (i : ℕ) (c : Candle) (r : StopRejection)
    (h : detectLow config data st i c = Except.error r) :
    r.minimumStopLossRejection = true := by
  unfold detectLow at h
  dsimp only at h
  split at h
  all_goals try exact (Except.noConfusion h)
  cases hA : detectLowAttempt config data st i c
      (calculateTimeDiffInMinutes c.timeMin st.previousLowTime) with
  | error r' =>
    rw [hA] at h
    dsimp only at h
    cases h
    have hAe := hA
    unfold detectLowAttempt at hAe
    by_cases h1 : isTimeThresholdMet (calculateTimeDiffInMinutes c.timeMin st.previousLowTime)
        config = true ∧ st.pendingShortBreakout = none ∧ st.shortEntry = none
    · rw [if_pos h1] at hAe
      by_cases h2 : isVolumeConfirmationMet data i config = true
      · rw [if_pos h2] at hAe
        dsimp only at hAe
        by_cases h3 : isMinimumStopLossPercentMet (applyPriceRounding st.previousLowPrice config)
            (applyPriceRounding st.highestSinceLastLow config) config = true
        · rw [if_pos h3] at hAe
          exact (Except.noConfusion hAe)
        · rw [if_neg h3] at hAe
          cases hAe
          rfl
      · rw [if_neg h2] at hAe
        exact (Except.noConfusion hAe)
    · rw [if_neg h1] at hAe
      exact (Except.noConfusion hAe)
  | ok st' =>
    rw [hA] at h
    dsimp only at h
    exact (Except.noConfusion h)

theorem analyzeDayStep_error (config : Config) (data : List Candle) (st : DetectorState)
    (i : ℕ) (c : Candle) (r : StopRejection)
    (h : analyzeDayStep config data st i c = Except.error r) :
    r.minimumStopLossRejection = true := by
  unfold analyzeDayStep at h
  dsimp only at h
  cases hh : detectHigh config data
      (fillShortEntryOrder config
        (fillLongEntryOrder config
          (placeShortEntryOrder config
            (placeLongEntryOrder config (updExtremes st c) i c) i c) i c) i c) i c with
  | error r' =>
    rw [hh] at h
    simp only at h
    cases h
    exact detectHigh_error _ _ _ _ _ _ hh
  | ok st' =>
    rw [hh] at h
    simp only at h
    exact detectLow_error _ _ _ _ _ _ h

theorem isVolumeConfirmationMet_append (config : Config) (d₁ d₂ : List Candle) (i : ℕ)
    (h0 : ¬(i = 0)) (hlt : i - 1 < d₁.length) :
    isVolumeConfirmationMet (d₁ ++ d₂) i config = isVolumeConfirmationMet d₁ i config := by
  unfold isVolumeConfirmationMet
  by_cases hen : ¬config.volumeConfirmation.enabled
  · simp [hen]
  · rw [if_neg hen, if_neg hen]
    have hc1 : ¬(i = 0 ∨ (d₁ ++ d₂).length ≤ i - 1) := by
      simp only [List.length_append]
      omega
    have hc2 : ¬(i = 0 ∨ d₁.length ≤ i - 1) := by omega
    rw [if_neg hc1, if_neg hc2]
    have hpre : (d₁ ++ d₂).get? (i - 1) = d₁.get? (i - 1) := List.get?_append hlt
    have hmap : (List.range' (i - 1 - config.volumeConfirmation.lookbackPeriod)
        ((i - 1) - (i - 1 - config.volumeConfirmation.lookbackPeriod))).map
          (fun j => (((d₁ ++ d₂).get? j).map Candle.volume).getD 0) =
        (List.range' (i - 1 - config.volumeConfirmation.lookbackPeriod)
        ((i - 1) - (i - 1 - config.volumeConfirmation.lookbackPeriod))).map
          (fun j => ((d₁.get? j).map Candle.volume).getD 0) := by
      apply List.map_congr_left
      intro j hj
      obtain ⟨k, hk, rfl⟩ := List.mem_range'.mp hj
      have hjlt : i - 1 - config.volumeConfirmation.lookbackPeriod + 1 * k < d₁.length := by
        omega
      rw [List.get?_append hjlt]
    simp only [hpre, hmap]

theorem analyzeDayStep_append (config : Config) (d₁ d₂ : List Candle) (st : DetectorState)
    (i : ℕ) (c : Candle) (h0 : ¬(i = 0)) (hlt : i - 1 < d₁.length) :
    analyzeDayStep config (d₁ ++ d₂) st i c = analyzeDayStep config d₁ st i c := by
  unfold analyzeDayStep detectHigh detectLow detectHighAttempt detectLowAttempt
  simp only [isVolumeConfirmationMet_append config d₁ d₂ i h0 hlt]

theorem scanSteps_append_error (config : Config) (d₁ d₂ : List Candle)
    (L : List (ℕ × Candle)) (st : DetectorState) (r : StopRejection)
    (hL : ∀ p ∈ L, ¬(p.1 = 0) ∧ p.1 - 1 < d₁.length)
    (h : scanSteps config d₁ st L = Except.error r) (L' : List (ℕ × Candle)) :
    scanSteps config (d₁ ++ d₂) st (L ++ L') = Except.error r := by
  induction L generalizing st with
  | nil => simp [scanSteps] at h
  | cons p rest ih =>
    obtain ⟨h0, hlt⟩ := hL p (List.mem_cons_self p rest)
    unfold scanSteps at h ⊢
    rw [List.cons_append]
    simp only
    rw [analyzeDayStep_append config d₁ d₂ st p.1 p.2 h0 hlt]
    cases hstep : analyzeDayStep config d₁ st p.1 p.2 with
    | error r' =>
      rw [hstep] at h
      simp only at h
      exact h
    | ok st' =>
      rw [hstep] at h
      simp only at h
      exact ih st' (fun q hq => hL q (List.mem_cons_of_mem p hq)) h

theorem analyzeDayScan_append_error (config : Config) (d₁ d₂ : List Candle)
    (r : StopRejection) (h : analyzeDayScan config d₁ = Except.error r) :
    analyzeDayScan config (d₁ ++ d₂) = Except.error r := by
  cases d₁ with
  | nil => simp [analyzeDayScan] at h
  | cons c0 tl =>
    unfold analyzeDayScan at h ⊢
    simp only [List.cons_append]
    rw [List.enumFrom_append]
    rw [← List.cons_append]
    refine scanSteps_append_error config (c0 :: tl) d₂ (tl.enumFrom 1) (initState c0) r ?_ h _
    intro p hp
    have h1 := List.le_fst_of_mem_enumFrom hp
    have h2 := List.fst_lt_add_of_mem_enumFrom hp
    simp only [List.length_cons]
    omega

/-- C7: a minimum-stop rejection ends the day immediately: every early
return of the scan loop carries `minimumStopLossRejection = true`; once
the scan of a day ends in a rejection, appending any further candles to
the day leaves the outcome exactly that rejection (no further candle is
scanned); and `backtest` analyzes every day independently, each day being
mapped through `analyzeTradingDay` regardless of other days' outcomes. -/
theorem C7_rejection_terminates_day :
    (∀ (config : Config) (data : List Candle) (st : DetectorState) (i : ℕ) (c : Candle)
      (r : StopRejection), analyzeDayStep config data st i c = Except.error r →
      r.minimumStopLossRejection = true) ∧
    (∀ (config : Config) (d₁ d₂ : List Candle) (r : StopRejection),
      analyzeDayScan config d₁ = Except.error r →
      analyzeTradingDay config (d₁ ++ d₂) = DayOutcome.minStopRejection r) ∧
    (∀ (config : Config) (days : List (List Candle)),
      backtestAllTrades config days = days.map (analyzeTradingDay config)) := by
  refine ⟨analyzeDayStep_error, ?_, fun config days => rfl⟩
  intro config d₁ d₂ r h
  unfold analyzeTradingDay
  rw [analyzeDayScan_append_error config d₁ d₂ r h]

deriving instance DecidableEq for Except

/-- First candle of the rejection day: body high `100`, body low `99.7`. -/
def c0C7 : Candle := ⟨555, 100, 1002/10, 996/10, 997/10, 0⟩

/-- Second candle: a new body high `100.3` after `45` minutes, whose stop
distance `0.3%` falls below the `0.5%` minimum. -/
def c1C7 : Candle := ⟨600, 1003/10, 1004/10, 1002/10, 1003/10, 0⟩

/-- A day whose scan is rejected at candle `1` for a stop distance of
`0.3% < 0.5%`. -/
def dayC7 : List Candle := [c0C7, c1C7]

/-- An extra candle appended after the rejection. -/
def extraC7 : Candle := ⟨605, 100, 100, 100, 100, 0⟩

/-- The rejection produced on `dayC7`: long, at `600`, breakout `100`,
actual stop distance `0.3%`. -/
def rC7w : StopRejection := ⟨Direction.long, 600, 100, 3/10, true⟩

/-- C7 (witness): on the concrete day `dayC7` the scan step at candle `1`
returns the rejection `rC7w` with `minimumStopLossRejection = true`;
appending a further candle leaves the day outcome exactly that rejection;
and the backtest of `[dayC7]` is the map of `analyzeTradingDay`. -/
theorem C7_witness :
    (analyzeDayStep cfgA dayC7 (initState c0C7) 1 c1C7 = Except.error rC7w ∧
      rC7w.minimumStopLossRejection = true) ∧
    (analyzeDayScan cfgA dayC7 = Except.error rC7w ∧
      analyzeTradingDay cfgA (dayC7 ++ [extraC7]) = DayOutcome.minStopRejection rC7w) ∧
    backtestAllTrades cfgA [dayC7] = [dayC7].map (analyzeTradingDay cfgA) :=
  ⟨⟨by with_unfolding_all decide,
    C7_rejection_terminates_day.1 cfgA dayC7 (initState c0C7) 1 c1C7 rC7w
      (by with_unfolding_all decide)⟩,
   ⟨by with_unfolding_all decide,
    C7_rejection_terminates_day.2.1 cfgA dayC7 [extraC7] rC7w
      (by with_unfolding_all decide)⟩,
   C7_rejection_terminates_day.2.2 cfgA [dayC7]⟩

/-- The minimum-stop check holds on a breakout event's recorded prices. -/
def bOK (config : Config) (b : BreakoutEvent) : Prop :=
  isMinimumStopLossPercentMet b.breakoutPrice b.stopLoss config = true

/-- The minimum-stop check holds on a filled entry's recorded prices. -/
def eOK (config : Config) (e : Entry) : Prop :=
  isMinimumStopLossPercentMet e.breakoutPrice e.stopLoss config = true

/-- Every breakout recorded in a scan state passes the minimum-stop check
at the breakout price. -/
def stOK (config : Config) (st : DetectorState) : Prop :=
  (∀ b, st.pendingLongBreakout = some b → bOK config b) ∧
  (∀ b, st.pendingShortBreakout = some b → bOK config b) ∧
  (∀ o, st.pendingLongEntryOrder = some o → bOK config o.breakoutInfo) ∧
  (∀ o, st.pendingShortEntryOrder = some o → bOK config o.breakoutInfo) ∧
  (∀ e, st.longEntry = some e → eOK config e) ∧
  (∀ e, st.shortEntry = some e → eOK config e)

theorem initState_minStop (config : Config) (c0 : Candle) : stOK config (initState c0) :=
  ⟨fun _ h => Option.noConfusion h, fun _ h => Option.noConfusion h,
   fun _ h => Option.noConfusion h, fun _ h => Option.noConfusion h,
   fun _ h => Option.noConfusion h, fun _ h => Option.noConfusion h⟩

theorem updExtremes_minStop (config : Config) (st : DetectorState) (c : Candle)
    (h : stOK config st) : stOK config (updExtremes st c) := by
  obtain ⟨h1, h2, h3, h4, h5, h6⟩ := h
  unfold updExtremes
  dsimp only
  split_ifs <;> exact ⟨h1, h2, h3, h4, h5, h6⟩

theorem placeLongEntryOrder_minStop (config : Config) (st : DetectorState) (i : ℕ) (c : Candle)
    (h : stOK config st) : stOK config (placeLongEntryOrder config st i c) := by
  obtain ⟨h1, h2, h3, h4, h5, h6⟩ := h
  unfold placeLongEntryOrder
  cases hb : st.pendingLongBreakout with
  | none =>
    exact ⟨h1, h2, h3, h4, h5, h6⟩
  | some b =>
    cases he : st.longEntry with
    | some e => exact ⟨h1, h2, h3, h4, h5, h6⟩
    | none =>
      cases ho : st.pendingLongEntryOrder with
      | some o => exact ⟨h1, h2, h3, h4, h5, h6⟩
      | none =>
        dsimp only
        split_ifs with hc ht
        · exact ⟨fun b' hb' => by cases hb'; exact h1 b hb, h2,
            fun o' ho' => by cases ho'; exact h1 b hb, h4,
            fun _ he' => Option.noConfusion he', h6⟩
        · exact ⟨fun _ hb' => Option.noConfusion hb', h2,
            fun _ ho' => Option.noConfusion ho', h4,
            fun _ he' => Option.noConfusion he', h6⟩
        · exact ⟨h1, h2, h3, h4, h5, h6⟩

theorem placeShortEntryOrder_minStop (config : Config) (st : DetectorState) (i : ℕ) (c : Candle)
    (h : stOK config st) : stOK config (placeShortEntryOrder config st i c) := by
  obtain ⟨h1, h2, h3, h4, h5, h6⟩ := h
  unfold placeShortEntryOrder
  cases hb : st.pendingShortBreakout with
  | none =>
    exact ⟨h1, h2, h3, h4, h5, h6⟩
  | some b =>
    cases he : st.shortEntry with
    | some e => exact ⟨h1, h2, h3, h4, h5, h6⟩
    | none =>
      cases ho : st.pendingShortEntryOrder with
      | some o => exact ⟨h1, h2, h3, h4, h5, h6⟩
      | none =>
        dsimp only
        split_ifs with hc ht
        · exact ⟨h1, fun b' hb' => by cases hb'; exact h2 b hb, h3,
            fun o' ho' => by cases ho'; exact h2 b hb,
            h5, fun _ he' => Option.noConfusion he'⟩
        · exact ⟨h1, fun _ hb' => Option.noConfusion hb', h3,
            fun _ ho' => Option.noConfusion ho',
            h5, fun _ he' => Option.noConfusion he'⟩
        · exact ⟨h1, h2, h3, h4, h5, h6⟩

theorem fillLongEntryOrder_minStop (config : Config) (st : DetectorState) (i : ℕ) (c : Candle)
    (h : stOK config st) : stOK config (fillLongEntryOrder config st i c) := by
  obtain ⟨h1, h2, h3, h4, h5, h6⟩ := h
  unfold fillLongEntryOrder
  cases ho : st.pendingLongEntryOrder with
  | none => exact ⟨h1, h2, h3, h4, h5, h6⟩
  | some o =>
    cases he : st.longEntry with
    | some e => exact ⟨h1, h2, h3, h4, h5, h6⟩
    | none =>
      dsimp only
      split_ifs with h7 h8 h9 h10
      · exact ⟨fun _ hb' => Option.noConfusion hb', h2, fun _ ho' => Option.noConfusion ho', h4,
          fun e' he' => by cases he'; exact h3 o ho, h6⟩
      · exact ⟨h1, h2, fun o' ho' => by cases ho'; exact h3 o ho, h4,
          fun _ he' => Option.noConfusion he', h6⟩
      · exact ⟨h1, h2, h3, h4, h5, h6⟩
      · exact ⟨fun _ hb' => Option.noConfusion hb', h2, fun _ ho' => Option.noConfusion ho', h4,
          fun _ he' => Option.noConfusion he', h6⟩
      · exact ⟨h1, h2, h3, h4, h5, h6⟩

theorem fillShortEntryOrder_minStop (config : Config) (st : DetectorState) (i : ℕ) (c : Candle)
    (h : stOK config st) : stOK config (fillShortEntryOrder config st i c) := by
  obtain ⟨h1, h2, h3, h4, h5, h6⟩ := h
  unfold fillShortEntryOrder
  cases ho : st.pendingShortEntryOrder with
  | none => exact ⟨h1, h2, h3, h4, h5, h6⟩
  | some o =>
    cases he : st.shortEntry with
    | some e => exact ⟨h1, h2, h3, h4, h5, h6⟩
    | none =>
      dsimp only
      split_ifs with h7 h8 h9 h10
      · exact ⟨h1, fun _ hb' => Option.noConfusion hb', h3, fun _ ho' => Option.noConfusion ho',
          h5, fun e' he' => by cases he'; exact h4 o ho⟩
      · exact ⟨h1, h2, h3, fun o' ho' => by cases ho'; exact h4 o ho,
          h5, fun _ he' => Option.noConfusion he'⟩
      · exact ⟨h1, h2, h3, h4, h5, h6⟩
      · exact ⟨h1, fun _ hb' => Option.noConfusion hb', h3, fun _ ho' => Option.noConfusion ho',
          h5, fun _ he' => Option.noConfusion he'⟩
      · exact ⟨h1, h2, h3, h4, h5, h6⟩

theorem detectHighAttempt_minStop (config : Config) (data : List Candle) (st : DetectorState)
    (i : ℕ) (c : Candle) (t : ℕ) (st' : DetectorState)
    (hA : detectHighAttempt config data st i c t = Except.ok st')
    (h : stOK config st) : stOK config st' := by
  obtain ⟨h1, h2, h3, h4, h5, h6⟩ := h
  unfold detectHighAttempt at hA
  by_cases hg : isTimeThresholdMet t config = true ∧ st.pendingLongBreakout = none ∧
      st.longEntry = none
  · rw [if_pos hg] at hA
    by_cases hv : isVolumeConfirmationMet data i config = true
    · rw [if_pos hv] at hA
      dsimp only at hA
      by_cases hm : isMinimumStopLossPercentMet (applyPriceRounding st.previousHighPrice config)
          (applyPriceRounding st.lowestSinceLastHigh config) config = true
      · rw [if_pos hm] at hA
        cases hA
        exact ⟨fun b hb => by cases hb; exact hm, h2, h3, h4, h5, h6⟩
      · rw [if_neg hm] at hA
        exact (Except.noConfusion hA)
    · rw [if_neg hv] at hA
      cases hA
      exact ⟨h1, h2, h3, h4, h5, h6⟩
  · rw [if_neg hg] at hA
    cases hA
    exact ⟨h1, h2, h3, h4, h5, h6⟩

theorem detectLowAttempt_minStop (config : Config) (data : List Candle) (st : DetectorState)
    (i : ℕ) (c : Candle) (t : ℕ) (st' : DetectorState)
    (hA : detectLowAttempt config data st i c t = Except.ok st')
    (h : stOK config st) : stOK config st' := by
  obtain ⟨h1, h2, h3, h4, h5, h6⟩ := h
  unfold detectLowAttempt at hA
  by_cases hg : isTimeThresholdMet t config = true ∧ st.pendingShortBreakout = none ∧
      st.shortEntry = none
  · rw [if_pos hg] at hA
    by_cases hv : isVolumeConfirmationMet data i config = true
    · rw [if_pos hv] at hA
      dsimp only at hA
      by_cases hm : isMinimumStopLossPercentMet (applyPriceRounding st.previousLowPrice config)
          (applyPriceRounding st.highestSinceLastLow config) config = true
      · rw [if_pos hm] at hA
        cases hA
        exact ⟨h1, fun b hb => by cases hb; exact hm, h3, h4, h5, h6⟩
      · rw [if_neg hm] at hA
        exact (Except.noConfusion hA)
    · rw [if_neg hv] at hA
      cases hA
      exact ⟨h1, h2, h3, h4, h5, h6⟩
  · rw [if_neg hg] at hA
    cases hA
    exact ⟨h1, h2, h3, h4, h5, h6⟩

theorem recordInvalidHigh_minStop (config : Config) (st : DetectorState) (c : Candle) (t : ℕ)
    (h : stOK config st) : stOK config (recordInvalidHigh config st c t) := by
  obtain ⟨h1, h2, h3, h4, h5, h6⟩ := h
  unfold recordInvalidHigh
  split_ifs <;> exact ⟨h1, h2, h3, h4, h5, h6⟩

theorem recordInvalidLow_minStop (config : Config) (st : DetectorState) (c : Candle) (t : ℕ)
    (h : stOK config st) : stOK config (recordInvalidLow config st c t) := by
  obtain ⟨h1, h2, h3, h4, h5, h6⟩ := h
  unfold recordInvalidLow
  split_ifs <;> exact ⟨h1, h2, h3, h4, h5, h6⟩

theorem detectHigh_minStop (config : Config) (data : List Candle) (st : DetectorState)
    (i : ℕ) (c : Candle) (st' : DetectorState)
    (hh : detectHigh config data st i c = Except.ok st')
    (h : stOK config st) : stOK config st' := by
  unfold detectHigh at hh
  dsimp only at hh
  split at hh
  · cases hA : detectHighAttempt config data st i c
        (calculateTimeDiffInMinutes c.timeMin st.previousHighTime) with
    | error r => rw [hA] at hh; exact (Except.noConfusion hh)
    | ok st2 =>
      rw [hA] at hh
      dsimp only at hh
      cases hh
      exact recordInvalidHigh_minStop config st2 c _
        (detectHighAttempt_minStop config data st i c _ st2 hA h)
  · cases hh
    exact h

theorem detectLow_minStop (config : Config) (data : List Candle) (st : DetectorState)
    (i : ℕ) (c : Candle) (st' : DetectorState)
    (hh : detectLow config data st i c = Except.ok st')
    (h : stOK config st) : stOK config st' := by
  unfold detectLow at hh
  dsimp only at hh
  split at hh
  · cases hA : detectLowAttempt config data st i c
        (calculateTimeDiffInMinutes c.timeMin st.previousLowTime) with
    | error r => rw [hA] at hh; exact (Except.noConfusion hh)
    | ok st2 =>
      rw [hA] at hh
      dsimp only at hh
      cases hh
      exact recordInvalidLow_minStop config st2 c _
        (detectLowAttempt_minStop config data st i c _ st2 hA h)
  · cases hh
    exact h

theorem analyzeDayStep_minStop (config : Config) (data : List Candle) (st : DetectorState)
    (i : ℕ) (c : Candle) (st' : DetectorState)
    (h : analyzeDayStep config data st i c = Except.ok st')
    (hst : stOK config st) : stOK config st' := by
  unfold analyzeDayStep at h
  dsimp only at h
  have hst5 : stOK config
      (fillShortEntryOrder config
        (fillLongEntryOrder config
          (placeShortEntryOrder config
            (placeLongEntryOrder config (updExtremes st c) i c) i c) i c) i c) :=
    fillShortEntryOrder_minStop _ _ _ _
      (fillLongEntryOrder_minStop _ _ _ _
        (placeShortEntryOrder_minStop _ _ _ _
          (placeLongEntryOrder_minStop _ _ _ _
            (updExtremes_minStop _ _ _ hst))))
  cases hh : detectHigh config data
      (fillShortEntryOrder config
        (fillLongEntryOrder config
          (placeShortEntryOrder config
            (placeLongEntryOrder config (updExtremes st c) i c) i c) i c) i c) i c with
  | error r => rw [hh] at h; exact (Except.noConfusion h)
  | ok st6 =>
    rw [hh] at h
    simp only at h
    exact detectLow_minStop config data st6 i c st' h
      (detectHigh_minStop config data _ i c st6 hh hst5)

theorem scanSteps_minStop (config : Config) (data : List Candle) (L : List (ℕ × Candle))
    (st st' : DetectorState) (h : scanSteps config data st L = Except.ok st')
    (hst : stOK config st) : stOK config st' := by
  induction L generalizing st with
  | nil =>
    unfold scanSteps at h
    cases h
    exact hst
  | cons p rest ih =>
    unfold scanSteps at h
    cases hstep : analyzeDayStep config data st p.1 p.2 with
    | error r => rw [hstep] at h; exact (Except.noConfusion h)
    | ok st2 =>
      rw [hstep] at h
      simp only at h
      exact ih st2 h (analyzeDayStep_minStop config data st p.1 p.2 st2 hstep hst)

theorem analyzeDayScan_minStop (config : Config) (data : List Candle) (st : DetectorState)
    (h : analyzeDayScan config data = Except.ok st) : stOK config st := by
  unfold analyzeDayScan at h
  cases data with
  | nil =>
    dsimp only at h
    cases h
    exact initState_minStop config _
  | cons c0 tl =>
    dsimp only at h
    exact scanSteps_minStop config (c0 :: tl) (tl.enumFrom 1) (initState c0) st h
      (initState_minStop config c0)

theorem dayDispatch_minStop (config : Config) (data : List Candle) (st : DetectorState)
    (r : TradeResult) (hst : stOK config st)
    (h : (dayDispatch config data st).tradeResult? = some r) :
    isMinimumStopLossPercentMet r.breakoutPrice r.stopLoss config = true := by
  obtain ⟨h1, h2, h3, h4, h5, h6⟩ := hst
  unfold dayDispatch at h
  cases he : st.longEntry with
  | some e =>
    rw [he] at h
    dsimp only at h
    cases hsim : simulateTrade config config.capital e data with
    | none => rw [hsim] at h; exact Option.noConfusion h
    | some tr =>
      rw [hsim] at h
      dsimp only [Option.elim, DayOutcome.tradeResult?] at h
      cases h
      unfold simulateTrade at hsim
      cases hidx : findEntryIndex e data with
      | none => rw [hidx] at hsim; exact Option.noConfusion hsim
      | some k =>
        rw [hidx] at hsim
        dsimp only at hsim
        cases hsim
        exact h5 e he
  | none =>
    rw [he] at h
    cases he2 : st.shortEntry with
    | some e =>
      rw [he2] at h
      dsimp only at h
      cases hsim : simulateTrade config config.capital e data with
      | none => rw [hsim] at h; exact Option.noConfusion h
      | some tr =>
        rw [hsim] at h
        dsimp only [Option.elim, DayOutcome.tradeResult?] at h
        cases h
        unfold simulateTrade at hsim
        cases hidx : findEntryIndex e data with
        | none => rw [hidx] at hsim; exact Option.noConfusion hsim
        | some k =>
          rw [hidx] at hsim
          dsimp only at hsim
          cases hsim
          exact h6 e he2
    | none =>
      rw [he2] at h
      dsimp only at h
      repeat' split at h
      all_goals exact Option.noConfusion h

/-- C2 (amended): the minimum-stop invariant holds at the recorded
breakout price, not at the actual entry price: for every trade result
produced by the backtest under a config with `minimumStopLossPercent >
0`, `|breakoutPrice − stopLoss| / breakoutPrice × 100 ≥
minimumStopLossPercent`. -/
theorem C2_amended (config : Config) (days : List (List Candle)) (d : DayOutcome)
    (r : TradeResult) (hd : d ∈ backtestAllTrades config days)
    (hr : d.tradeResult? = some r) (hpos : 0 < config.minimumStopLossPercent) :
    |r.breakoutPrice - r.stopLoss| / r.breakoutPrice * 100 ≥ config.minimumStopLossPercent := by
  unfold backtestAllTrades at hd
  obtain ⟨data, hdata, hday⟩ := List.mem_map.mp hd
  subst hday
  unfold analyzeTradingDay at hr
  cases hscan : analyzeDayScan config data with
  | error rj =>
    rw [hscan] at hr
    exact Option.noConfusion hr
  | ok st =>
    rw [hscan] at hr
    cases data with
    | nil =>
      dsimp only at hr
      exact Option.noConfusion hr
    | cons c0 tl =>
      dsimp only at hr
      have hmet := dayDispatch_minStop config (c0 :: tl) st r
        (analyzeDayScan_minStop config (c0 :: tl) st hscan) hr
      unfold isMinimumStopLossPercentMet at hmet
      rw [if_neg (not_le.mpr hpos)] at hmet
      exact of_decide_eq_true hmet

/-- The concrete trade result of `dayC2` under `cfgA`. -/
def rC2w : TradeResult := (analyzeTradingDay cfgA dayC2).tradeResult?.getD dummyTradeResult

/-- C2 (amended, witness): on `dayC2` the trade's breakout price `100`
and stop `99.5` satisfy the minimum-stop inequality (`0.5% ≥ 0.5%`), even
though measured at the entry `99.55` the distance is below the minimum. -/
theorem C2_amended_witness :
    (analyzeTradingDay cfgA dayC2).tradeResult?.isSome = true ∧
    0 < cfgA.minimumStopLossPercent ∧
    |rC2w.breakoutPrice - rC2w.stopLoss| / rC2w.breakoutPrice * 100 ≥
      cfgA.minimumStopLossPercent := by
  have hsome : (analyzeTradingDay cfgA dayC2).tradeResult?.isSome = true := by
    with_unfolding_all decide
  refine ⟨hsome, by with_unfolding_all decide, ?_⟩
  exact C2_amended cfgA [dayC2] (analyzeTradingDay cfgA dayC2) rC2w
    (by simp [backtestAllTrades]) (eq_some_getD _ _ hsome) (by with_unfolding_all decide)

end HighLow

